import Mathlib

/-!
Verification development for the virtual chemistry lab.

The development shallowly embeds the core of the lab store
(`src/store/labStore.ts`), the reaction manager (`src/core/ReactionManager.ts`),
the curriculum experiment data (`src/core/experiments.ts`), the heating system
of the 3D scene, and the neutralization colour interpolation of
`src/components/Beaker.tsx`.

Modelling conventions:
- JavaScript numbers are modelled as rationals (`ℚ`); all arithmetic in the
  embedded code is exact, so no floating-point rounding is modelled.
- The zustand store is modelled as an explicit `Store` structure; each store
  action becomes a pure function `Store → ... → Store`.  `set` with a partial
  record is modelled by a `{ s with ... }` update.
- A JavaScript `Map` is modelled as an insertion-ordered association list
  (`List (String × LabVessel)`): `get` finds the first binding, `set` replaces
  the binding in place or appends a new one.
- Deferred callbacks (`setTimeout`: delayed `applyReaction`, delayed stir
  completion, the delayed completion popup, auto-evaporation) are not part of
  the synchronous state transition produced by an action and are outside the
  embedded step functions; the claims below are about the synchronous updates.
- Purely presentational state (selected vessel, pouring animation flags,
  active visual effects, reaction notifications, sound) is omitted from
  `Store`: the spec scopes these out as rendering/audio collaborators and no
  embedded operation reads them.
-/

namespace ChemLab

/-- `ChemicalType` from `src/core/types.ts`. -/
inductive ChemicalType where
  | acid | base | neutral | metal | salt | water | indicator
deriving DecidableEq

/-- `Chemical` from `src/core/types.ts`. -/
structure Chemical where
  id : String
  name : String
  formula : Option String := none
  color : String
  type : ChemicalType
  concentration : Option ℚ := none
deriving DecidableEq

/-- `VesselContents` from `src/core/types.ts`: one (chemical, volume) entry. -/
structure VesselContents where
  chemical : Chemical
  volume : ℚ
deriving DecidableEq

/-- `LabVessel` from `src/core/types.ts`.  The vessel kind strings are
`beaker`, `flask`, `test_tube`, `graduated_cylinder`, `tongs`. -/
structure LabVessel where
  id : String
  name : Option String := none
  type : String
  capacity : ℚ
  currentVolume : ℚ
  tiltAngle : ℚ
  temperature : ℚ
  contents : List VesselContents
  position : ℚ × ℚ × ℚ
deriving DecidableEq

/-- `Reaction` from `src/core/types.ts` (a sandbox reaction rule). -/
structure Reaction where
  id : String
  name : String
  description : String
  reactants : ChemicalType × ChemicalType
  products : List Chemical
  resultColor : String
  effects : List String
  isExothermic : Bool := false
deriving DecidableEq

/-! ### The JavaScript `Map` used for `vessels` -/

/-- `Map.get`: value of the first binding of the key, if any. -/
def mapGet : List (String × LabVessel) → String → Option LabVessel
  | [], _ => none
  | p :: rest, k => if p.1 = k then some p.2 else mapGet rest k

/-- `Map.has`: whether a binding of the key exists. -/
def mapContains : List (String × LabVessel) → String → Bool
  | [], _ => false
  | p :: rest, k => p.1 == k || mapContains rest k

/-- Replace every binding of the key in place (a JavaScript `Map` holds at most
one binding per key, so at most one replacement happens on states built by the
store). -/
def mapReplace : List (String × LabVessel) → String → LabVessel → List (String × LabVessel)
  | [], _, _ => []
  | p :: rest, k, v =>
    if p.1 = k then (k, v) :: mapReplace rest k v else p :: mapReplace rest k v

/-- `Map.set`: replace the binding in place, or append a fresh binding. -/
def mapSet (m : List (String × LabVessel)) (k : String) (v : LabVessel) :
    List (String × LabVessel) :=
  if mapContains m k then mapReplace m k v else m ++ [(k, v)]

theorem mapGet_append_single (m : List (String × LabVessel)) (k k' : String) (v : LabVessel) :
    mapGet (m ++ [(k, v)]) k' =
      (mapGet m k').orElse (fun _ => if k = k' then some v else none) := by
  induction m with
  | nil => by_cases h : k = k' <;> simp [mapGet, h]
  | cons p rest ih =>
    by_cases h : p.1 = k' <;> simp [mapGet, h, ih]

theorem mapGet_mapReplace_self (m : List (String × LabVessel)) (k : String) (v : LabVessel)
    (h : mapContains m k = true) : mapGet (mapReplace m k v) k = some v := by
  induction m with
  | nil => simp [mapContains] at h
  | cons p rest ih =>
    by_cases hp : p.1 = k
    · simp [mapReplace, mapGet, hp]
    · simp only [mapContains, Bool.or_eq_true, beq_iff_eq] at h
      rcases h with h | h
      · exact absurd h hp
      · simp [mapReplace, mapGet, hp, ih h]

theorem mapGet_mapReplace_ne (m : List (String × LabVessel)) (k k' : String) (v : LabVessel)
    (hne : k' ≠ k) : mapGet (mapReplace m k v) k' = mapGet m k' := by
  induction m with
  | nil => simp [mapReplace]
  | cons p rest ih =>
    by_cases hp : p.1 = k
    · simp [mapReplace, mapGet, hp, Ne.symm hne, ih]
    · by_cases hp' : p.1 = k' <;> simp [mapReplace, mapGet, hp, hp', hne, ih]

theorem mapGet_mapSet_self (m : List (String × LabVessel)) (k : String) (v : LabVessel) :
    mapGet (mapSet m k v) k = some v := by
  unfold mapSet
  split
  next h => exact mapGet_mapReplace_self m k v h
  next h =>
    rw [mapGet_append_single]
    have : mapGet m k = none := by
      induction m with
      | nil => simp [mapGet]
      | cons p rest ih =>
        simp only [mapContains, Bool.or_eq_true, beq_iff_eq, not_or] at h
        simp [mapGet, h.1, ih (by simp [mapContains, h.2])]
    simp [this]

theorem mapGet_mapSet_ne (m : List (String × LabVessel)) (k k' : String) (v : LabVessel)
    (hne : k' ≠ k) : mapGet (mapSet m k v) k' = mapGet m k' := by
  unfold mapSet
  split
  next => exact mapGet_mapReplace_ne m k k' v hne
  next =>
    rw [mapGet_append_single]
    cases h : mapGet m k' <;> simp [h, Ne.symm hne]

/-! ### Curriculum experiment data model (`src/core/experiments.ts`) -/

/-- `ExperimentChemical` from `src/core/experiments.ts`. -/
structure ExperimentChemical where
  id : String
  name : String
  color : String
deriving DecidableEq

/-- `ExperimentVisual` from `src/core/experiments.ts` (display hints; all
fields optional). -/
structure ExperimentVisual where
  liquidColor : Option String := none
  particles : Option Bool := none
  settled : Option Bool := none
  steam : Option Bool := none
  crystals : Option Bool := none
  pouring : Option Bool := none
  filtered : Option Bool := none
  melting : Option Bool := none
  burning : Option Bool := none
  ash : Option Bool := none
  brightFlame : Option Bool := none
  indicatorChange : Option Bool := none
  indicatorAdded : Option Bool := none
  neutralized : Option Bool := none
deriving DecidableEq

/-- `ExperimentReaction` from `src/core/experiments.ts`: one outcome-table
entry. -/
structure ExperimentReaction where
  observation : String
  explanation : String
  visual : ExperimentVisual := {}
  success : Bool
  resultType : Option String := none
deriving DecidableEq

/-- `Experiment` from `src/core/experiments.ts`.  The `reactions` record is an
insertion-ordered string-keyed object, modelled as an association list. -/
structure Experiment where
  id : String
  title : String
  chapter : String
  classLevel : ℕ
  aim : String
  apparatus : List String
  chemicals : List ExperimentChemical
  reactions : List (String × ExperimentReaction)
  conclusion : String
  procedureSteps : List String := []
deriving DecidableEq

/-! ### The lab store state (`src/store/labStore.ts`)

Presentation-only fields of the zustand store (selected vessel, pouring
animation state, active effects, reaction notifications, heatingVesselId,
`experimentMode`/`showLab` routing flags) are omitted: no embedded operation
branches on them. -/

/-- The store state of `useLabStore`. -/
structure Store where
  vessels : List (String × LabVessel)
  pendingFiltrationVolume : ℚ
  bunsenBurnerOn : Bool
  currentExperiment : Option Experiment
  placedApparatus : List String
  addedChemicals : List String
  experimentActions : List String
  currentObservation : String
  currentExplanation : String
  showExplanation : Bool
  experimentHeatLevel : ℚ
  experimentStirCount : ℕ
  isStirring : Bool
  completedExperiments : List String
  saltTested : Bool
  sandTested : Bool
  resetAfterSaltTest : Bool
  showResetPrompt : Bool
  resetPromptMessage : String
  showCompletionPopup : Bool
  dishCracked : Bool
  iceTested : Bool
  paperTested : Bool
  magnesiumTested : Bool
  neutralizationAnimating : Bool
  neutralizationDropCount : ℕ
  neutralizationComplete : Bool
  safetyWarning : Option (String × String)
deriving DecidableEq

/-! ### Vessel fill and transfer (`fillVessel` / `transferLiquid`) -/

/-- Update the first content entry satisfying `p` (JavaScript
`findIndex` + in-place update on the matched index). -/
def updateFirst (p : VesselContents → Bool) (f : VesselContents → VesselContents) :
    List VesselContents → List VesselContents
  | [] => []
  | c :: cs => if p c then f c :: cs else c :: updateFirst p f cs

/-- `fillVessel(vesselId, chemical, volume)` from `labStore.ts` (lines
321-365).  The deferred sandbox reaction check (`setTimeout` →
`applyReaction`) is a separate later step and not part of this update. -/
def fillVessel (s : Store) (vesselId : String) (chemical : Chemical) (volume : ℚ) : Store :=
  match mapGet s.vessels vesselId with
  | none => s
  | some vessel =>
    let newVolume := min (vessel.currentVolume + volume) vessel.capacity
    let actualVolumeAdded := newVolume - vessel.currentVolume
    if actualVolumeAdded ≤ 0 then s
    else
      let newContents :=
        if vessel.contents.any (fun c => c.chemical.id == chemical.id) then
          updateFirst (fun c => c.chemical.id == chemical.id)
            (fun c => { c with volume := c.volume + actualVolumeAdded }) vessel.contents
        else
          vessel.contents ++ [{ chemical := chemical, volume := actualVolumeAdded }]
      let newVessel := { vessel with currentVolume := newVolume, contents := newContents }
      { s with vessels := mapSet s.vessels vesselId newVessel }

/-- The body of the `source.contents.forEach` loop of `transferLiquid`
(lines 431-441): each entry keeps `volume - volume * frac` in the source when
that residue exceeds `0.01`, and contributes `volume * frac` to the transferred
list when that sub-amount exceeds `0.01`.  Returns
(newSourceContents, transferredContents). -/
def splitContents (frac : ℚ) :
    List VesselContents → List VesselContents × List VesselContents
  | [] => ([], [])
  | c :: cs =>
    let rest := splitContents frac cs
    let transferAmount := c.volume * frac
    let remainingAmount := c.volume - transferAmount
    ((if remainingAmount > 1/100 then [{ c with volume := remainingAmount }] else []) ++ rest.1,
     (if transferAmount > 1/100 then [⟨c.chemical, transferAmount⟩] else []) ++ rest.2)

/-- One step of the merge of transferred contents into the target (lines
445-457): add to the existing entry with the same chemical id, or push a new
entry. -/
def mergeContent (acc : List VesselContents) (t : VesselContents) : List VesselContents :=
  if acc.any (fun c => c.chemical.id == t.chemical.id) then
    updateFirst (fun c => c.chemical.id == t.chemical.id)
      (fun c => { c with volume := c.volume + t.volume }) acc
  else
    acc ++ [t]

/-- Body of `transferLiquid` once both vessels have been found.
`transferFrac` is `transferRatio` in the source. -/
def transferLiquidGo (s : Store) (sourceId targetId : String) (volume : ℚ)
    (source target : LabVessel) : Store :=
  if source.currentVolume ≤ 0 then s
  else
    let availableVolume := source.currentVolume
    let targetSpace := target.capacity - target.currentVolume
    let actualTransfer := min volume (min availableVolume targetSpace)
    if actualTransfer ≤ 0 then s
    else
      let transferFrac := actualTransfer / source.currentVolume
      let split := splitContents transferFrac source.contents
      let newSourceContents := split.1
      let transferredContents := split.2
      let newTargetContents := transferredContents.foldl mergeContent target.contents
      let vs1 := mapSet s.vessels sourceId
        { source with currentVolume := source.currentVolume - actualTransfer,
                      contents := newSourceContents }
      let vs2 := mapSet vs1 targetId
        { target with currentVolume := target.currentVolume + actualTransfer,
                      contents := newTargetContents }
      if targetId = "collection_beaker" then
        let newExperimentActions :=
          if actualTransfer > 0 ∧ ¬ s.experimentActions.contains "pour" then
            s.experimentActions ++ ["pour"]
          else s.experimentActions
        -- the collection beaker is restored to its pre-transfer value and
        -- the liquid is diverted to the pending filtration buffer
        { s with vessels := mapSet vs2 targetId target,
                 experimentActions := newExperimentActions,
                 pendingFiltrationVolume := s.pendingFiltrationVolume + actualTransfer }
      else
        { s with vessels := vs2 }

/-- `transferLiquid(sourceId, targetId, volume)` from `labStore.ts` (lines
409-504), including the `collection_beaker` filtration diversion (lines
482-501).  The deferred reaction check on the target is a separate later step. -/
def transferLiquid (s : Store) (sourceId targetId : String) (volume : ℚ) : Store :=
  match mapGet s.vessels sourceId, mapGet s.vessels targetId with
  | some source, some target => transferLiquidGo s sourceId targetId volume source target
  | _, _ => s

theorem transferLiquid_eq_go (s : Store) (sourceId targetId : String) (volume : ℚ)
    (source target : LabVessel)
    (hs : mapGet s.vessels sourceId = some source)
    (ht : mapGet s.vessels targetId = some target) :
    transferLiquid s sourceId targetId volume =
      transferLiquidGo s sourceId targetId volume source target := by
  unfold transferLiquid
  rw [hs, ht]

/-- The clamped amount actually moved by a transfer
(`Math.min(volume, availableVolume, targetSpace)`). -/
def actualTransferOf (volume : ℚ) (source target : LabVessel) : ℚ :=
  min volume (min source.currentVolume (target.capacity - target.currentVolume))

/-- An effective transfer into a normal (non-collection) distinct target:
the source keeps the over-threshold residues of the proportional split and
loses the clamped amount; the target merges the transferred sub-amounts and
gains the clamped amount. -/
theorem transfer_normal_spec (s : Store) (sourceId targetId : String) (volume : ℚ)
    (source target : LabVessel)
    (hs : mapGet s.vessels sourceId = some source)
    (ht : mapGet s.vessels targetId = some target)
    (hne : sourceId ≠ targetId)
    (hcb : targetId ≠ "collection_beaker")
    (h1 : ¬ source.currentVolume ≤ 0)
    (h2 : ¬ actualTransferOf volume source target ≤ 0) :
    mapGet (transferLiquid s sourceId targetId volume).vessels sourceId =
      some { source with
        currentVolume := source.currentVolume - actualTransferOf volume source target,
        contents := (splitContents
          (actualTransferOf volume source target / source.currentVolume) source.contents).1 } ∧
    mapGet (transferLiquid s sourceId targetId volume).vessels targetId =
      some { target with
        currentVolume := target.currentVolume + actualTransferOf volume source target,
        contents := List.foldl mergeContent target.contents
          (splitContents
            (actualTransferOf volume source target / source.currentVolume)
            source.contents).2 } ∧
    (transferLiquid s sourceId targetId volume).pendingFiltrationVolume =
      s.pendingFiltrationVolume ∧
    (transferLiquid s sourceId targetId volume).experimentActions =
      s.experimentActions := by
  unfold actualTransferOf at h2 ⊢
  rw [transferLiquid_eq_go s sourceId targetId volume source target hs ht]
  unfold transferLiquidGo
  rw [if_neg h1]
  simp only []
  rw [if_neg h2, if_neg hcb]
  refine ⟨?_, ?_, rfl, rfl⟩
  · rw [mapGet_mapSet_ne _ _ _ _ hne, mapGet_mapSet_self]
  · rw [mapGet_mapSet_self]

/-- An effective transfer into the `collection_beaker`: the collection beaker
is left untouched, the clamped amount is diverted to the filtration buffer,
the source still loses the clamped amount, and the `pour` action is inserted
once. -/
theorem transferToCollection_spec (s : Store) (sourceId : String) (volume : ℚ)
    (source target : LabVessel)
    (hs : mapGet s.vessels sourceId = some source)
    (ht : mapGet s.vessels "collection_beaker" = some target)
    (hne : sourceId ≠ "collection_beaker")
    (h1 : ¬ source.currentVolume ≤ 0)
    (h2 : ¬ actualTransferOf volume source target ≤ 0) :
    mapGet (transferLiquid s sourceId "collection_beaker" volume).vessels
      "collection_beaker" = some target ∧
    (transferLiquid s sourceId "collection_beaker" volume).pendingFiltrationVolume =
      s.pendingFiltrationVolume + actualTransferOf volume source target ∧
    mapGet (transferLiquid s sourceId "collection_beaker" volume).vessels sourceId =
      some { source with
        currentVolume := source.currentVolume - actualTransferOf volume source target,
        contents := (splitContents
          (actualTransferOf volume source target / source.currentVolume) source.contents).1 } ∧
    (transferLiquid s sourceId "collection_beaker" volume).experimentActions =
      (if s.experimentActions.contains "pour" then s.experimentActions
       else s.experimentActions ++ ["pour"]) := by
  unfold actualTransferOf at h2 ⊢
  rw [transferLiquid_eq_go s sourceId "collection_beaker" volume source target hs ht]
  unfold transferLiquidGo
  rw [if_neg h1]
  simp only []
  rw [if_neg h2]
  simp only [if_true]
  refine ⟨?_, ?_, ?_, ?_⟩
  · rw [mapGet_mapSet_self]
  · trivial
  · rw [mapGet_mapSet_ne _ _ _ _ hne, mapGet_mapSet_ne _ _ _ _ hne, mapGet_mapSet_self]
  · by_cases hp : s.experimentActions.contains "pour"
    · rw [if_neg (fun hcond => hcond.2 hp), if_pos hp]
    · rw [if_pos ⟨not_le.mp h2, hp⟩, if_neg hp]

/-- An effective self-transfer (source and target the same vessel outside the
collection beaker): the later target write wins, so the vessel's volume ends
up increased by the clamped amount. -/
theorem transfer_self_volume (s : Store) (vesselId : String) (volume : ℚ)
    (source : LabVessel)
    (hs : mapGet s.vessels vesselId = some source)
    (hcb : vesselId ≠ "collection_beaker")
    (h1 : ¬ source.currentVolume ≤ 0)
    (h2 : ¬ actualTransferOf volume source source ≤ 0) :
    (mapGet (transferLiquid s vesselId vesselId volume).vessels vesselId).map
      LabVessel.currentVolume =
      some (source.currentVolume + actualTransferOf volume source source) := by
  unfold actualTransferOf at h2 ⊢
  rw [transferLiquid_eq_go s vesselId vesselId volume source source hs hs]
  unfold transferLiquidGo
  rw [if_neg h1]
  simp only []
  rw [if_neg h2, if_neg hcb]
  rw [mapGet_mapSet_self]
  rfl

/-- An effective self-transfer, full vessel form: the final target write wins,
so the vessel ends with the transferred sub-amounts merged back on top of its
original contents and its volume increased by the clamped amount. -/
theorem transfer_self_spec (s : Store) (vesselId : String) (volume : ℚ)
    (source : LabVessel)
    (hs : mapGet s.vessels vesselId = some source)
    (hcb : vesselId ≠ "collection_beaker")
    (h1 : ¬ source.currentVolume ≤ 0)
    (h2 : ¬ actualTransferOf volume source source ≤ 0) :
    mapGet (transferLiquid s vesselId vesselId volume).vessels vesselId =
      some { source with
        currentVolume := source.currentVolume + actualTransferOf volume source source,
        contents := List.foldl mergeContent source.contents
          (splitContents (actualTransferOf volume source source / source.currentVolume)
            source.contents).2 } := by
  unfold actualTransferOf at h2 ⊢
  rw [transferLiquid_eq_go s vesselId vesselId volume source source hs hs]
  unfold transferLiquidGo
  rw [if_neg h1]
  simp only []
  rw [if_neg h2, if_neg hcb]
  rw [mapGet_mapSet_self]

/-- The clear-water chemical created by `addFiltrate` (line 522). -/
def clearWater : Chemical :=
  { id := "water", name := "Water", color := "#c8e0ff", type := ChemicalType.water }

/-- `addFiltrate(volume)` from `labStore.ts` (lines 514-544): drain a capped
amount from the pending filtration buffer into the collection beaker. -/
def addFiltrate (s : Store) (volume : ℚ) : Store :=
  match mapGet s.vessels "collection_beaker" with
  | none => s
  | some beaker =>
    if s.pendingFiltrationVolume ≤ 0 then s
    else
      let finalVolume := min volume s.pendingFiltrationVolume
      if finalVolume ≤ 0 then s
      else
        let newContents :=
          if beaker.contents.any (fun c => c.chemical.id == "water") then
            -- the source maps over every entry with id "water"
            beaker.contents.map (fun c =>
              if c.chemical.id == "water" then { c with volume := c.volume + finalVolume } else c)
          else
            beaker.contents ++ [{ chemical := clearWater, volume := finalVolume }]
        let newBeaker := { beaker with currentVolume := beaker.currentVolume + finalVolume,
                                       contents := newContents }
        { s with
            vessels := mapSet s.vessels "collection_beaker" newBeaker,
            pendingFiltrationVolume := s.pendingFiltrationVolume - finalVolume }

/-! ### ReactionManager (`src/core/ReactionManager.ts`) -/

/-- Entries of the `CHEMICALS` catalogue that the reaction rules reference. -/
def waterChemical : Chemical :=
  { id := "water", name := "Water", formula := some "H₂O", color := "#4fc3f7",
    type := ChemicalType.water }

def sodiumChloride : Chemical :=
  { id := "sodium_chloride", name := "Sodium Chloride (Salt)", formula := some "NaCl",
    color := "#ffffff", type := ChemicalType.salt }

def sodiumHydroxide : Chemical :=
  { id := "sodium_hydroxide", name := "Sodium Hydroxide", formula := some "NaOH",
    color := "#e1bee7", type := ChemicalType.base, concentration := some 1 }

def bariumSulfate : Chemical :=
  { id := "barium_sulfate", name := "Barium Sulfate", formula := some "BaSO₄",
    color := "#ffffff", type := ChemicalType.salt }

def hydrogenGas : Chemical :=
  { id := "hydrogen_gas", name := "Hydrogen Gas", formula := some "H₂",
    color := "transparent", type := ChemicalType.neutral }

def zincChloride : Chemical :=
  { id := "zinc_chloride", name := "Zinc Chloride", formula := some "ZnCl₂",
    color := "#f5f5f5", type := ChemicalType.salt }

/-- The acid-base rule, first entry of `REACTIONS`. -/
def acidBaseRule : Reaction :=
  { id := "acid_base_neutralization",
    name := "Acid-Base Neutralization",
    description := "When an acid reacts with a base, they neutralize each other to form water and a salt.",
    reactants := (ChemicalType.acid, ChemicalType.base),
    products := [waterChemical, sodiumChloride],
    resultColor := "#e0f7fa",
    effects := ["color_change", "heat"],
    isExothermic := true }

/-- The `REACTIONS` rule base (`ReactionManager.ts` lines 95-165). -/
def REACTIONS : List Reaction :=
  [ acidBaseRule,
    { id := "acid_metal_reaction",
      name := "Acid-Metal Reaction",
      description := "When an acid reacts with a reactive metal, it produces hydrogen gas and a salt.",
      reactants := (ChemicalType.acid, ChemicalType.metal),
      products := [hydrogenGas, zincChloride],
      resultColor := "#f5f5f5",
      effects := ["bubbles", "heat"],
      isExothermic := true },
    { id := "indicator_base",
      name := "Indicator Color Change",
      description := "Phenolphthalein turns pink in basic solutions!",
      reactants := (ChemicalType.indicator, ChemicalType.base),
      products := [sodiumHydroxide],
      resultColor := "#ff66b2",
      effects := ["color_change"],
      isExothermic := false },
    { id := "barium_sulfate_precipitation",
      name := "Precipitation Reaction",
      description := "Barium chloride reacts with sulfuric acid to form white barium sulfate precipitate!",
      reactants := (ChemicalType.salt, ChemicalType.acid),
      products := [bariumSulfate],
      resultColor := "#ffffff",
      effects := ["precipitate"],
      isExothermic := false } ]

/-- `ReactionManager.findReaction`: first rule whose unordered reactant pair
matches `(t1, t2)`. -/
def findReaction : List Reaction → ChemicalType → ChemicalType → Option Reaction
  | [], _, _ => none
  | r :: rest, t1, t2 =>
    if (r.reactants.1 == t1 && r.reactants.2 == t2) ||
       (r.reactants.1 == t2 && r.reactants.2 == t1) then some r
    else findReaction rest t1 t2

/-- Inner loop of `ReactionManager.checkReaction`: try the head entry against
each later entry in order. -/
def findPairReaction (rs : List Reaction) (c : VesselContents) :
    List VesselContents → Option Reaction
  | [] => none
  | d :: ds =>
    match findReaction rs c.chemical.type d.chemical.type with
    | some r => some r
    | none => findPairReaction rs c ds

/-- `ReactionManager.checkReaction`: scan all unordered pairs `(i, j)` with
`i < j` in iteration order and return the first rule that matches (the
`occurred` flag of `ReactionResult` is `isSome` here; fewer than two entries
yield no reaction). -/
def checkReaction (rs : List Reaction) : List VesselContents → Option Reaction
  | [] => none
  | c :: rest =>
    match findPairReaction rs c rest with
    | some r => some r
    | none => checkReaction rs rest

/-- `applyReaction(vesselId, reaction)` from `labStore.ts` (lines 643-690):
replace the vessel contents with the products, each product receiving
`currentVolume / products.length`.  The visual effects and the notification
payload are display-only and omitted from `Store`. -/
def applyReaction (s : Store) (vesselId : String) (reaction : Reaction) : Store :=
  match mapGet s.vessels vesselId with
  | none => s
  | some vessel =>
    let newContents := reaction.products.map (fun product =>
      { chemical := product,
        volume := vessel.currentVolume / (reaction.products.length : ℚ) })
    let newVessel := { vessel with contents := newContents }
    { s with vessels := mapSet s.vessels vesselId newVessel }

/-! ### Heating system (`src/components/Scene.tsx`, `HeatingSystem`)

Per frame, the heating system computes each vessel's horizontal Euclidean
distance to the heating zone centre `[0, 0, 2]` and updates its temperature via
`updateVesselTemperature`.  The distance involves a square root, so the per
vessel temperature step is parametrised by the computed `distance`. -/

/-- The heating radius (`heatingDistance = 0.7`). -/
def heatingDistanceConst : ℚ := 7/10

/-- `heatingRate = 15 * (1 - distance / heatingDistance)`: closer means faster
heating. -/
def heatingRate (distance : ℚ) : ℚ := 15 * (1 - distance / heatingDistanceConst)

/-- One per-vessel temperature update of `HeatingSystem.useFrame`: burner off →
decay toward 25 at rate 5; inside the radius → rise toward the 120 cap at
`heatingRate distance`; outside the radius → decay toward 25 at rate 3.
`delta` is the frame time.  (The boiling-effect emission at 100 °C is
display/audio-only and omitted.) -/
def vesselTemperatureStep (bunsenBurnerOn : Bool) (distance temperature delta : ℚ) : ℚ :=
  if !bunsenBurnerOn then
    if temperature > 25 then max 25 (temperature - delta * 5) else temperature
  else if distance < heatingDistanceConst then
    min 120 (temperature + delta * heatingRate distance)
  else
    if temperature > 25 then max 25 (temperature - delta * 3) else temperature

/-! ### Neutralization colour interpolation (`src/components/Beaker.tsx`,
lines 190-216)

`three.js` colours store each channel in `[0, 1]` (hex value / 255);
`Color.lerp(target, t)` moves each channel by `t` times the difference.  The
final hex quantisation of `getHexString` is not modelled; the claims are about
the pre-quantisation interpolation values. -/

structure RGB where
  r : ℚ
  g : ℚ
  b : ℚ
deriving DecidableEq

/-- `Color.lerp`. -/
def lerpColor (base target : RGB) (t : ℚ) : RGB :=
  { r := base.r + (target.r - base.r) * t,
    g := base.g + (target.g - base.g) * t,
    b := base.b + (target.b - base.b) * t }

/-- `#ff69b4`, phenolphthalein pink in base. -/
def pinkBase : RGB := { r := 255/255, g := 105/255, b := 180/255 }

/-- `#f5f5f5`, the colourless neutral state. -/
def colourlessTarget : RGB := { r := 245/255, g := 245/255, b := 245/255 }

/-- `displayProgress` of the neutralization branch of `liquidColor`: drops
below the threshold fade very subtly (`0.08` per drop); at five or more drops
the progress snaps to `1`. -/
def neutralizationDisplayProgress (dropCount : ℕ) : ℚ :=
  if 5 ≤ dropCount then 1 else (dropCount : ℚ) * (8/100)

/-- The neutralization liquid colour for a beaker containing NaOH and
phenolphthalein: when `neutralizationComplete` is set the colourless state is
forced regardless of the drop count; otherwise the colour interpolates by
`neutralizationDisplayProgress`. -/
def neutralizationLiquidColor (neutralizationComplete : Bool) (dropCount : ℕ) : RGB :=
  if neutralizationComplete then colourlessTarget
  else lerpColor pinkBase colourlessTarget (neutralizationDisplayProgress dropCount)

/-! ### Experiment engine (`labStore.ts`, guided mode) -/

/-- `Array.prototype.join("+")`. -/
def joinPlus (xs : List String) : String := String.intercalate "+" xs

/-- Lexicographic comparison of character lists (the order JavaScript string
comparison uses; these ids are ASCII, so code-unit order is character order). -/
def charListLe : List Char → List Char → Bool
  | [], _ => true
  | _ :: _, [] => false
  | c :: cs, d :: ds => if c < d then true else if d < c then false else charListLe cs ds

/-- Lexicographic string comparison on the character data. -/
def strLeB (a b : String) : Bool := charListLe a.data b.data

/-- Insert into a lexicographically sorted list. -/
def insertString (x : String) : List String → List String
  | [] => [x]
  | y :: ys => if strLeB x y then x :: y :: ys else y :: insertString x ys

/-- JavaScript `Array.prototype.sort()` on strings: lexicographic order
(insertion sort; the source arrays hold distinct ids, so stability is
irrelevant). -/
def sortStrings : List String → List String
  | [] => []
  | x :: xs => insertString x (sortStrings xs)

/-- JavaScript `String.prototype.includes`: substring test. -/
def strIncludes (s sub : String) : Bool :=
  (List.range (s.data.length + 1)).any (fun i => sub.data.isPrefixOf (s.data.drop i))

/-- JavaScript global dash-to-space replace used for display names. -/
def replaceDashes (s : String) : String :=
  String.mk (s.data.map (fun ch => if ch = '-' then ' ' else ch))

/-- `generateKeys` inside `checkExperimentReaction` (lines 840-862): candidate
signature keys, most specific first — (chemicals + all actions) as added and
sorted, then (chemicals + each single action) as added and sorted, then
chemicals alone as added and sorted. -/
def generateKeys (chemicals actions : List String) : List String :=
  (if actions.length > 0 then
     [joinPlus (chemicals ++ actions),
      joinPlus (sortStrings chemicals ++ sortStrings actions)]
   else []) ++
  (actions.flatMap (fun action =>
     [joinPlus (chemicals ++ [action]),
      joinPlus (sortStrings chemicals ++ [action])])) ++
  (if chemicals.length > 0 then
     [joinPlus chemicals, joinPlus (sortStrings chemicals)]
   else [])

/-- Lookup in the experiment's `reactions` object. -/
def lookupReaction : List (String × ExperimentReaction) → String → Option ExperimentReaction
  | [], _ => none
  | p :: rest, k => if p.1 = k then some p.2 else lookupReaction rest k

/-- The exact-match pass (lines 870-877): probe the outcome table with each
candidate key in rank order and stop at the first hit. -/
def firstExactMatch (tbl : List (String × ExperimentReaction)) :
    List String → Option (String × ExperimentReaction)
  | [] => none
  | k :: ks =>
    match lookupReaction tbl k with
    | some r => some (k, r)
    | none => firstExactMatch tbl ks

/-- The fixed action vocabulary of the superset pass (lines 883-884). -/
def actionsVocabulary : List String := ["stir", "heat", "filter", "evaporate", "pour"]

/-- The split of a key on the `+` separator (JavaScript `split`), computed on
the character data. -/
def splitPlusAux : List Char → List Char → List String
  | [], acc => [String.mk acc.reverse]
  | ch :: cs, acc =>
    if ch = '+' then String.mk acc.reverse :: splitPlusAux cs []
    else splitPlusAux cs (ch :: acc)

def splitOnPlus (s : String) : List String := splitPlusAux s.data []

/-- Whether a defined key's chemical tokens and action tokens are all present
in the current state (lines 882-888). -/
def keyRequirementsMet (chemicals actions : List String) (key : String) : Bool :=
  let parts := splitOnPlus key
  let requiredChemicals := parts.filter (fun p => !(actionsVocabulary.contains p))
  let requiredActions := parts.filter (fun p => actionsVocabulary.contains p)
  requiredChemicals.all (fun c => chemicals.contains c) &&
    requiredActions.all (fun a => actions.contains a)

/-- The superset fallback pass (lines 880-895): scan the defined keys in
insertion order and accept the first whose requirements are met. -/
def supersetMatch (chemicals actions : List String) :
    List (String × ExperimentReaction) → Option (String × ExperimentReaction)
  | [] => none
  | p :: rest =>
    if keyRequirementsMet chemicals actions p.1 then some p
    else supersetMatch chemicals actions rest

/-- The full matching routine of `checkExperimentReaction`: the exact pass over
the generated keys, then — only if it found nothing — the superset pass. -/
def findExperimentMatch (tbl : List (String × ExperimentReaction))
    (chemicals actions : List String) : Option (String × ExperimentReaction) :=
  match firstExactMatch tbl (generateKeys chemicals actions) with
  | some kr => some kr
  | none => supersetMatch chemicals actions tbl

/-- The salt-dissolution branch of `checkExperimentReaction` (lines 898-952). -/
def saltDissolutionBranch (s : Store) (exp : Experiment) (matchedKey : String)
    (matchedReaction : ExperimentReaction) : Store :=
  let saltNow := strIncludes matchedKey "salt" && strIncludes matchedKey "stir" &&
    !s.saltTested
  let sandNow := !saltNow && (strIncludes matchedKey "sand" && strIncludes matchedKey "stir" &&
    !s.sandTested)
  let newSaltTested := s.saltTested || saltNow
  let newSandTested := s.sandTested || sandNow
  let promptRaised := saltNow
  let promptMessage :=
    if saltNow then "✅ Salt test complete! Click RESET to test with Sand." else ""
  if newSaltTested && newSandTested then
    if !(s.completedExperiments.contains exp.id) then
      -- auto-mark complete; the completion popup itself is shown by a timer
      { s with currentObservation := "🎉 Experiment Complete! You tested both salt and sand.",
               currentExplanation := exp.conclusion,
               showExplanation := true,
               saltTested := newSaltTested, sandTested := newSandTested,
               showResetPrompt := false, resetPromptMessage := "",
               completedExperiments := s.completedExperiments ++ [exp.id] }
    else
      { s with currentObservation := matchedReaction.observation,
               currentExplanation := matchedReaction.explanation,
               showExplanation := true,
               saltTested := newSaltTested, sandTested := newSandTested,
               showResetPrompt := false, resetPromptMessage := promptMessage }
  else
    { s with currentObservation := matchedReaction.observation,
             currentExplanation := matchedReaction.explanation,
             showExplanation := true,
             saltTested := newSaltTested, sandTested := newSandTested,
             showResetPrompt := promptRaised, resetPromptMessage := promptMessage }

/-- The physical-chemical branch of `checkExperimentReaction` (lines 954-1073). -/
def physicalChemicalBranch (s : Store) (exp : Experiment) (matchedKey : String)
    (matchedReaction : ExperimentReaction) : Store :=
  if matchedKey = "ice+heat" then
    let expWater := exp.chemicals.find? (fun c => c.id == "water")
    let waterChem : Chemical :=
      match expWater with
      | some e => { id := e.id, name := e.name, color := e.color, type := ChemicalType.water }
      | none => { id := "water", name := "Water", color := "#a8d4ff", type := ChemicalType.water }
    let newVessels := s.vessels.map (fun p =>
      match p.2.contents.find? (fun c => c.chemical.id == "ice") with
      | some iceContent =>
        -- 0.4 of the ice volume, matching the visual ice-cube size
        let waterVolume := iceContent.volume * (4/10)
        (p.1, { p.2 with contents := [⟨waterChem, waterVolume⟩], currentVolume := waterVolume })
      | none => p)
    { s with vessels := newVessels,
             currentObservation := matchedReaction.observation,
             currentExplanation := matchedReaction.explanation,
             showExplanation := true,
             showResetPrompt := true,
             resetPromptMessage := "✅ Ice melted! Click RESET to test with Paper.",
             iceTested := true }
  else if matchedKey = "paper+heat" then
    let ashChem : Chemical :=
      { id := "ash", name := "Ash", color := "#333", type := ChemicalType.neutral }
    let newVessels := s.vessels.map (fun p =>
      if p.2.type == "tongs" && p.2.contents.any (fun c => c.chemical.id == "paper") then
        (p.1, { p.2 with contents := [⟨ashChem, 1⟩] })
      else p)
    { s with vessels := newVessels,
             currentObservation := matchedReaction.observation,
             currentExplanation := matchedReaction.explanation,
             showExplanation := true,
             showResetPrompt := true,
             resetPromptMessage := "✅ Paper burnt! Click RESET to test with Magnesium.",
             paperTested := true,
             bunsenBurnerOn := false }
  else if matchedKey = "magnesium+heat" then
    let oxideChem : Chemical :=
      { id := "magnesium-oxide", name := "Magnesium Oxide", color := "#fff",
        type := ChemicalType.base }
    let newVessels := s.vessels.map (fun p =>
      if p.2.type == "tongs" && p.2.contents.any (fun c => c.chemical.id == "magnesium") then
        (p.1, { p.2 with contents := [⟨oxideChem, 1⟩] })
      else p)
    if !(s.completedExperiments.contains exp.id) then
      { s with vessels := newVessels,
               currentObservation := matchedReaction.observation,
               currentExplanation := matchedReaction.explanation,
               showExplanation := true,
               completedExperiments := s.completedExperiments ++ [exp.id],
               magnesiumTested := true,
               bunsenBurnerOn := false }
    else
      { s with vessels := newVessels,
               currentObservation := matchedReaction.observation,
               currentExplanation := matchedReaction.explanation,
               showExplanation := true,
               magnesiumTested := true,
               bunsenBurnerOn := false }
  else
    { s with currentObservation := matchedReaction.observation,
             currentExplanation := matchedReaction.explanation,
             showExplanation := true,
             showResetPrompt := false, resetPromptMessage := "" }

/-- The generic success branch of `checkExperimentReaction` (lines 1076-1093);
`observation || 'Experiment Complete!'` and
`explanation || conclusion` fall back on the empty string. -/
def genericSuccessBranch (s : Store) (exp : Experiment)
    (matchedReaction : ExperimentReaction) : Store :=
  { s with
      currentObservation :=
        if matchedReaction.observation = "" then "Experiment Complete!"
        else matchedReaction.observation,
      currentExplanation :=
        if matchedReaction.explanation = "" then exp.conclusion
        else matchedReaction.explanation,
      showExplanation := true,
      completedExperiments := s.completedExperiments ++ [exp.id] }

/-- `checkExperimentReaction` from `labStore.ts` (lines 831-1103). -/
def checkExperimentReaction (s : Store) : Store :=
  match s.currentExperiment with
  | none => s
  | some exp =>
    match findExperimentMatch exp.reactions s.addedChemicals s.experimentActions with
    | none => s
    | some (matchedKey, matchedReaction) =>
      if exp.id = "salt-dissolution" ∧ matchedReaction.success then
        saltDissolutionBranch s exp matchedKey matchedReaction
      else if exp.id = "physical-chemical" then
        physicalChemicalBranch s exp matchedKey matchedReaction
      else if matchedReaction.success ∧ ¬ s.completedExperiments.contains exp.id then
        genericSuccessBranch s exp matchedReaction
      else
        { s with currentObservation := matchedReaction.observation,
                 currentExplanation := matchedReaction.explanation,
                 showExplanation := matchedReaction.success ||
                   matchedReaction.explanation.length != 0 }

/-- `addApparatusToExperiment(apparatusId)` (lines 759-768): idempotent
set-insert into `placedApparatus`. -/
def addApparatusToExperiment (s : Store) (apparatusId : String) : Store :=
  if s.placedApparatus.contains apparatusId then s
  else
    { s with placedApparatus := s.placedApparatus ++ [apparatusId],
             currentObservation := "Added " ++ replaceDashes apparatusId ++ " to the lab bench." }

/-- `addChemicalToExperiment(chemicalId)` (lines 771-785): idempotent
set-insert into `addedChemicals`. -/
def addChemicalToExperiment (s : Store) (chemicalId : String) : Store :=
  if s.addedChemicals.contains chemicalId then s
  else
    let chemicalName :=
      match s.currentExperiment with
      | some exp =>
        match exp.chemicals.find? (fun c => c.id == chemicalId) with
        | some c => if c.name = "" then replaceDashes chemicalId else c.name
        | none => replaceDashes chemicalId
      | none => replaceDashes chemicalId
    { s with addedChemicals := s.addedChemicals ++ [chemicalId],
             currentObservation := "Added " ++ chemicalName ++ " to the apparatus." }

/-- `performExperimentAction(action)` (lines 788-828): idempotent set-insert
into `experimentActions`; `heat` raises the heat level (capped at 100) and, for
the evaporation experiment, schedules a deferred auto-evaporate; `stir` bumps
the stir counter and starts stirring, scheduling a deferred stop-and-recheck.
The deferred callbacks are timers and outside this synchronous update. -/
def performExperimentAction (s : Store) (action : String) : Store :=
  if s.experimentActions.contains action then s
  else
    let newHeatLevel :=
      if action = "heat" then min 100 (s.experimentHeatLevel + 30) else s.experimentHeatLevel
    let newStirCount :=
      if action = "stir" then s.experimentStirCount + 1 else s.experimentStirCount
    let stirring := if action = "stir" then true else s.isStirring
    { s with experimentActions := s.experimentActions ++ [action],
             experimentHeatLevel := newHeatLevel,
             experimentStirCount := newStirCount,
             isStirring := stirring }

/-- `resetExperiment()` from `labStore.ts` (lines 1106-1190): clears the
accumulation sets and vessels; phase flags are preserved mid-run and cleared
only once every phase of the family is complete.  (The source also returns
`experimentRunning` and `timer` keys that are not part of the store interface;
they are dead and omitted.) -/
def resetExperiment (s : Store) : Store :=
  match s.currentExperiment with
  | none => s
  | some exp =>
    let saltCase := exp.id = "salt-dissolution"
    let newResetAfterSaltTest :=
      if saltCase ∧ s.saltTested ∧ ¬ s.sandTested then true
      else if saltCase ∧ s.saltTested ∧ s.sandTested then false
      else s.resetAfterSaltTest
    let previousSteps : List String :=
      if saltCase ∧ s.saltTested ∧ ¬ s.sandTested then
        ["Add water to the beaker", "Add salt to the water", "Stir the mixture",
         "Observe: Salt disappears"]
      else []
    let obsDefault := "📋 " ++ exp.aim
    let obsSalt :=
      if saltCase ∧ s.saltTested ∧ ¬ s.sandTested then
        "👉 Now test with SAND. Add water, then add sand, and stir."
      else obsDefault
    let pcCase := exp.id = "physical-chemical"
    let allPcTested := s.iceTested ∧ s.paperTested ∧ s.magnesiumTested
    let newIceTested := if pcCase ∧ allPcTested then false else s.iceTested
    let newPaperTested := if pcCase ∧ allPcTested then false else s.paperTested
    let newMagnesiumTested := if pcCase ∧ allPcTested then false else s.magnesiumTested
    let observation :=
      if pcCase then
        if s.iceTested ∧ ¬ s.paperTested then
          "👉 Round 2: Now test with PAPER. Place burner and tongs, then add paper strip and heat."
        else if s.iceTested ∧ s.paperTested ∧ ¬ s.magnesiumTested then
          "👉 Round 3: Now test with MAGNESIUM. Place burner and tongs, then add magnesium ribbon and heat."
        else if allPcTested then obsDefault
        else obsSalt
      else obsSalt
    let newExp := { exp with procedureSteps :=
      if previousSteps.length > 0 then previousSteps else exp.procedureSteps }
    { s with currentExperiment := some newExp,
             vessels := [],
             placedApparatus := [],
             addedChemicals := [],
             experimentActions := [],
             currentObservation := observation,
             currentExplanation := "",
             showExplanation := false,
             experimentHeatLevel := 0,
             experimentStirCount := 0,
             isStirring := false,
             resetAfterSaltTest := newResetAfterSaltTest,
             saltTested := if s.saltTested ∧ s.sandTested then false else s.saltTested,
             sandTested := if s.saltTested ∧ s.sandTested then false else s.sandTested,
             iceTested := newIceTested,
             paperTested := newPaperTested,
             magnesiumTested := newMagnesiumTested,
             showResetPrompt := false,
             resetPromptMessage := "",
             showCompletionPopup := false,
             dishCracked := false,
             safetyWarning := none,
             bunsenBurnerOn := false }

/-- `completeNeutralization()` (lines 623-632): set the completion flag, move
`hcl` to the end of the added chemicals, and re-run the reaction check. -/
def completeNeutralization (s : Store) : Store :=
  let s1 := { s with neutralizationAnimating := false,
                     neutralizationComplete := true,
                     addedChemicals :=
                       s.addedChemicals.filter (fun c => c ≠ "hcl") ++ ["hcl"] }
  checkExperimentReaction s1

/-- `incrementNeutralizationDrops()` (lines 612-621): bump the monotone drop
counter; at five or more drops complete the neutralization. -/
def incrementNeutralizationDrops (s : Store) : Store :=
  let newCount := s.neutralizationDropCount + 1
  let s1 := { s with neutralizationDropCount := newCount }
  if 5 ≤ newCount then completeNeutralization s1 else s1

/-- `markExperimentComplete(experimentId)` (lines 1193-1201): idempotent
insert into the persisted completion set. -/
def markExperimentComplete (s : Store) (experimentId : String) : Store :=
  if s.completedExperiments.contains experimentId then s
  else { s with completedExperiments := s.completedExperiments ++ [experimentId] }

/-! ### Curriculum data used by the claims -/

/-- The `salt-dissolution` experiment of `src/core/experiments.ts` (data copied verbatim). -/
def saltDissolutionExperiment : Experiment :=
  { id := "salt-dissolution",
    title := "Dissolving Salt vs Sand in Water",
    chapter := "Separation of Substances",
    classLevel := 6,
    aim := "To study the solubility of salt and sand in water.",
    apparatus := ["beaker", "glass-rod"],
    chemicals := [
      { id := "water", name := "Water", color := "#a8d4ff" },
      { id := "salt", name := "Common Salt", color := "#d0e8ff" },
      { id := "sand", name := "Sand", color := "#c4a465" }
    ],
    reactions := [
      ("water+salt+stir",
       { observation := "The salt crystals gradually disappear as you stir. The solution becomes slightly milky.",
         explanation := "Salt (sodium chloride) is soluble in water. Water molecules surround the salt ions (Naâº and Clâ») and pull them apart, distributing them evenly throughout the solution. This is called dissolution.",
         visual := { liquidColor := some "#e8f4ff", particles := some false },
         success := true }),
      ("water+sand+stir",
       { observation := "The sand particles swirl around but settle at the bottom when stirring stops. The water becomes slightly cloudy.",
         explanation := "Sand (silicon dioxide) is insoluble in water. The water molecules cannot break apart the strong bonds in sand particles. Sand is denser than water, so it sinks and settles at the bottom.",
         visual := { liquidColor := some "#d4c4a8", particles := some true, settled := some true },
         success := true }),
      ("water+salt",
       { observation := "Salt crystals are sitting in the water. Nothing much is happening yet.",
         explanation := "Try stirring the mixture to help the salt dissolve faster. Stirring increases the contact between water molecules and salt crystals.",
         visual := { liquidColor := some "#a8d4ff", particles := some true },
         success := false }),
      ("water+sand",
       { observation := "Sand has sunk to the bottom of the beaker. The water above is clear.",
         explanation := "Sand is denser than water and insoluble, so it naturally settles at the bottom.",
         visual := { liquidColor := some "#a8d4ff", particles := some true, settled := some true },
         success := false })
    ],
    conclusion := "Salt is soluble in water and forms a clear solution. Sand is insoluble in water and settles at the bottom. This difference in solubility can be used to separate mixtures of salt and sand.",
    procedureSteps := [
      "Place the beaker on the lab bench",
      "Add water to the beaker",
      "Add salt to the water",
      "Place the glass rod",
      "Stir the mixture with glass rod",
      "Observe - then Reset and repeat with sand"
    ] }

/-- The `neutralization` experiment of `src/core/experiments.ts` (data copied verbatim). -/
def neutralizationExperiment : Experiment :=
  { id := "neutralization",
    title := "Neutralization Reaction",
    chapter := "Acids, Bases and Salts",
    classLevel := 8,
    aim := "To study the reaction between an acid and a base using phenolphthalein indicator.",
    apparatus := ["beaker", "dropper"],
    chemicals := [
      { id := "naoh", name := "NaOH Solution", color := "#e0e0ff" },
      { id := "phenolphthalein", name := "Phenolphthalein", color := "#ffb6c1" },
      { id := "hcl", name := "Dilute HCl", color := "#ffe0e0" }
    ],
    reactions := [
      ("naoh",
       { observation := "Sodium hydroxide (NaOH) solution is in the beaker. It is a clear, colorless basic solution.",
         explanation := "NaOH is a strong base that completely dissociates in water to form Naâº and OHâ» ions.",
         visual := { liquidColor := some "#e8e8ff" },
         success := false }),
      ("naoh+phenolphthalein",
       { observation := "ðŸ’— The solution turned PINK! Phenolphthalein indicates the presence of a base. Now add HCl to neutralize.",
         explanation := "Phenolphthalein is colorless in acidic/neutral solutions but turns pink/magenta in basic solutions (pH > 8.2).",
         visual := { liquidColor := some "#ff69b4", indicatorAdded := some true },
         success := false }),
      ("naoh+phenolphthalein+hcl",
       { observation := "âšª NEUTRALIZATION COMPLETE! The solution is now colorless - the acid has neutralized the base!",
         explanation := "Complete neutralization: HCl + NaOH â†’ NaCl + Hâ‚‚O. The phenolphthalein turned colorless because the solution is no longer basic.",
         visual := { liquidColor := some "#f5f5f5", neutralized := some true },
         success := true })
    ],
    conclusion := "When an acid (HCl) reacts with a base (NaOH), they neutralize each other to form salt (NaCl) and water. Reaction: HCl + NaOH â†’ NaCl + Hâ‚‚O",
    procedureSteps := [
      "Place the beaker on the lab bench",
      "Add NaOH solution to the beaker",
      "Add Phenolphthalein indicator",
      "Select the dropper from apparatus shelf",
      "Slowly add 5 drops of HCl to neutralize"
    ] }

/-! ### Concrete states used by the scenario claims -/

/-- A neutral store value from which concrete scenario states are built (an
empty bench; the persisted completion list starts empty as with fresh browser
storage). -/
def baseStore : Store :=
  { vessels := [], pendingFiltrationVolume := 0, bunsenBurnerOn := false,
    currentExperiment := none, placedApparatus := [], addedChemicals := [],
    experimentActions := [], currentObservation := "", currentExplanation := "",
    showExplanation := false, experimentHeatLevel := 0, experimentStirCount := 0,
    isStirring := false, completedExperiments := [], saltTested := false,
    sandTested := false, resetAfterSaltTest := false, showResetPrompt := false,
    resetPromptMessage := "", showCompletionPopup := false, dishCracked := false,
    iceTested := false, paperTested := false, magnesiumTested := false,
    neutralizationAnimating := false, neutralizationDropCount := 0,
    neutralizationComplete := false, safetyWarning := none }

/-- A beaker of the initial store shape (capacity 500, room temperature). -/
def mkBeaker (id : String) (currentVolume : ℚ) (contents : List VesselContents) :
    LabVessel :=
  { id := id, type := "beaker", capacity := 500, currentVolume := currentVolume,
    tiltAngle := 0, temperature := 25, contents := contents, position := (0, 0, 0) }

/-- The collection beaker created for the filtration experiment
(`labStore.ts` lines 289-299). -/
def collectionBeaker : LabVessel :=
  { id := "collection_beaker", name := some "Collection Beaker", type := "beaker",
    capacity := 250, currentVolume := 0, tiltAngle := 0, temperature := 25,
    contents := [], position := (7/2, 0, 0) }

/-- A single 30 mL water entry. -/
def waterEntry30 : VesselContents := { chemical := waterChemical, volume := 30 }

/-- Scenario bench: beaker 1 holds a single 30 mL water entry, beaker 2 is
empty. -/
def scenarioBench : Store :=
  { baseStore with vessels :=
      [("beaker_1", mkBeaker "beaker_1" 30 [waterEntry30]),
       ("beaker_2", mkBeaker "beaker_2" 0 [])] }

/-- Filtration bench: beaker 1 holds 30 mL of water, and the collection beaker
is present. -/
def filtrationBench : Store :=
  { baseStore with vessels :=
      [("beaker_1", mkBeaker "beaker_1" 30 [waterEntry30]),
       ("collection_beaker", collectionBeaker)] }

/-! ### Claim C1 — volume conservation of `transferLiquid` -/

/-- Claim C1 (amended): after any `transferLiquid(source, destination, amount)`
call whose destination is a distinct vessel other than the filtration
`collection_beaker`, the sum `source.currentVolume + destination.currentVolume`
is exactly what it was before the call.  The state `s` is arbitrary, so this
holds after every call in any sequence of `fillVessel`/`transferLiquid`
operations. -/
theorem claim_C1 (s : Store) (sourceId targetId : String) (volume : ℚ)
    (source target : LabVessel)
    (hs : mapGet s.vessels sourceId = some source)
    (ht : mapGet s.vessels targetId = some target)
    (hne : sourceId ≠ targetId)
    (hcb : targetId ≠ "collection_beaker") :
    ∃ source' target',
      mapGet (transferLiquid s sourceId targetId volume).vessels sourceId = some source' ∧
      mapGet (transferLiquid s sourceId targetId volume).vessels targetId = some target' ∧
      source'.currentVolume + target'.currentVolume =
        source.currentVolume + target.currentVolume := by
  rw [transferLiquid_eq_go s sourceId targetId volume source target hs ht]
  unfold transferLiquidGo
  by_cases h1 : source.currentVolume ≤ 0
  · simp only [if_pos h1]
    exact ⟨source, target, hs, ht, rfl⟩
  · rw [if_neg h1]
    simp only []
    by_cases h2 : min volume (min source.currentVolume (target.capacity - target.currentVolume)) ≤ 0
    · rw [if_pos h2]
      exact ⟨source, target, hs, ht, rfl⟩
    · rw [if_neg h2, if_neg hcb]
      refine ⟨{ source with
          currentVolume := source.currentVolume -
            min volume (min source.currentVolume (target.capacity - target.currentVolume)),
          contents := (splitContents
            (min volume (min source.currentVolume (target.capacity - target.currentVolume)) /
              source.currentVolume) source.contents).1 },
        { target with
          currentVolume := target.currentVolume +
            min volume (min source.currentVolume (target.capacity - target.currentVolume)),
          contents := List.foldl mergeContent target.contents
            (splitContents
              (min volume (min source.currentVolume (target.capacity - target.currentVolume)) /
                source.currentVolume) source.contents).2 },
        ?_, ?_, ?_⟩
      · rw [mapGet_mapSet_ne _ _ _ _ hne, mapGet_mapSet_self]
      · rw [mapGet_mapSet_self]
      · show source.currentVolume -
            min volume (min source.currentVolume (target.capacity - target.currentVolume)) +
            (target.currentVolume +
              min volume (min source.currentVolume (target.capacity - target.currentVolume))) =
          source.currentVolume + target.currentVolume
        ring

/-- Witness for C1: the conservation theorem applied to a concrete pour of 50
out of a 30 mL beaker into an empty beaker. -/
theorem claim_C1_witness :
    ∃ source' target',
      mapGet (transferLiquid scenarioBench "beaker_1" "beaker_2" 50).vessels "beaker_1" =
        some source' ∧
      mapGet (transferLiquid scenarioBench "beaker_1" "beaker_2" 50).vessels "beaker_2" =
        some target' ∧
      source'.currentVolume + target'.currentVolume = 30 + 0 :=
  claim_C1 scenarioBench "beaker_1" "beaker_2" 50
    (mkBeaker "beaker_1" 30 [waterEntry30]) (mkBeaker "beaker_2" 0 [])
    (by decide) (by decide) (by decide) (by decide)

/-- Counterexample for C1 as frozen: the claim quantifies over every
`transferLiquid` call, but (a) a pour whose destination is the filtration
`collection_beaker` leaves the destination untouched while the source still
loses the clamped amount (10 mL vanishes from the two-vessel sum into the
filtration buffer), and (b) a self-transfer increases the sum. -/
theorem claim_C1_counterexample :
    ((mapGet (transferLiquid filtrationBench "beaker_1" "collection_beaker" 10).vessels
        "beaker_1").map LabVessel.currentVolume = some 20 ∧
     (mapGet (transferLiquid filtrationBench "beaker_1" "collection_beaker" 10).vessels
        "collection_beaker").map LabVessel.currentVolume = some 0 ∧
     ¬ ((20 : ℚ) + 0 = 30 + 0)) ∧
    ((mapGet (transferLiquid scenarioBench "beaker_1" "beaker_1" 10).vessels
        "beaker_1").map LabVessel.currentVolume = some 40 ∧
     ¬ ((40 : ℚ) + 40 = 30 + 30)) := by
  obtain ⟨hcoll, -, hsrc, -⟩ := transferToCollection_spec filtrationBench "beaker_1" 10
    (mkBeaker "beaker_1" 30 [waterEntry30]) collectionBeaker
    rfl rfl (by decide)
    (by norm_num [mkBeaker])
    (by norm_num [actualTransferOf, mkBeaker, collectionBeaker, min_def])
  have hself := transfer_self_volume scenarioBench "beaker_1" 10
    (mkBeaker "beaker_1" 30 [waterEntry30])
    rfl (by decide)
    (by norm_num [mkBeaker])
    (by norm_num [actualTransferOf, mkBeaker, min_def])
  refine ⟨⟨?_, ?_, by norm_num⟩, ?_, by norm_num⟩
  · rw [hsrc]
    norm_num [actualTransferOf, mkBeaker, collectionBeaker, min_def]
  · rw [hcoll]
    norm_num [collectionBeaker]
  · rw [hself]
    norm_num [actualTransferOf, mkBeaker, min_def]

/-! ### Claim C2 — transfer clamp -/

/-- Claim C2: `transferLiquid` moves at most
`min(source.currentVolume, destination.capacity - destination.currentVolume)`
(measured both as the source loss and as the destination gain, for any state
satisfying the vessel volume invariants), and in the concrete scenario
`transferLiquid(A, B, 50)` with A holding a single 30 mL water entry, exactly
30 is moved: A ends empty and B gains a 30 mL water entry. -/
theorem claim_C2 :
    (∀ (s : Store) (sourceId targetId : String) (volume : ℚ) (source target : LabVessel),
      mapGet s.vessels sourceId = some source →
      mapGet s.vessels targetId = some target →
      sourceId ≠ targetId →
      0 ≤ source.currentVolume →
      target.currentVolume ≤ target.capacity →
      ∃ source' target',
        mapGet (transferLiquid s sourceId targetId volume).vessels sourceId = some source' ∧
        mapGet (transferLiquid s sourceId targetId volume).vessels targetId = some target' ∧
        source.currentVolume - source'.currentVolume ≤
          min source.currentVolume (target.capacity - target.currentVolume) ∧
        target'.currentVolume - target.currentVolume ≤
          min source.currentVolume (target.capacity - target.currentVolume)) ∧
    ((mapGet (transferLiquid scenarioBench "beaker_1" "beaker_2" 50).vessels
        "beaker_1").map LabVessel.contents = some [] ∧
     (mapGet (transferLiquid scenarioBench "beaker_1" "beaker_2" 50).vessels
        "beaker_1").map LabVessel.currentVolume = some 0 ∧
     (mapGet (transferLiquid scenarioBench "beaker_1" "beaker_2" 50).vessels
        "beaker_2").map LabVessel.contents = some [waterEntry30] ∧
     (mapGet (transferLiquid scenarioBench "beaker_1" "beaker_2" 50).vessels
        "beaker_2").map LabVessel.currentVolume = some 30) := by
  constructor
  · intro s sourceId targetId volume source target hs ht hne hsv htc
    have hmin : (0 : ℚ) ≤ min source.currentVolume (target.capacity - target.currentVolume) :=
      le_min hsv (by linarith)
    have hle : actualTransferOf volume source target ≤
        min source.currentVolume (target.capacity - target.currentVolume) :=
      min_le_right _ _
    by_cases h1 : source.currentVolume ≤ 0
    · have hnoop : transferLiquid s sourceId targetId volume = s := by
        rw [transferLiquid_eq_go s sourceId targetId volume source target hs ht]
        unfold transferLiquidGo
        rw [if_pos h1]
      rw [hnoop]
      exact ⟨source, target, hs, ht, by simpa using hmin, by simpa using hmin⟩
    · by_cases h2 : actualTransferOf volume source target ≤ 0
      · have hnoop : transferLiquid s sourceId targetId volume = s := by
          unfold actualTransferOf at h2
          rw [transferLiquid_eq_go s sourceId targetId volume source target hs ht]
          unfold transferLiquidGo
          rw [if_neg h1]
          simp only []
          rw [if_pos h2]
        rw [hnoop]
        exact ⟨source, target, hs, ht, by simpa using hmin, by simpa using hmin⟩
      · by_cases hcb : targetId = "collection_beaker"
        · subst hcb
          obtain ⟨hcoll, -, hsrc, -⟩ :=
            transferToCollection_spec s sourceId volume source target hs ht hne h1 h2
          refine ⟨_, target, hsrc, hcoll, ?_, by simpa using hmin⟩
          show source.currentVolume -
              (source.currentVolume - actualTransferOf volume source target) ≤
            min source.currentVolume (target.capacity - target.currentVolume)
          linarith
        · obtain ⟨hsrc, htgt, -, -⟩ :=
            transfer_normal_spec s sourceId targetId volume source target hs ht hne hcb h1 h2
          refine ⟨_, _, hsrc, htgt, ?_, ?_⟩
          · show source.currentVolume -
                (source.currentVolume - actualTransferOf volume source target) ≤
              min source.currentVolume (target.capacity - target.currentVolume)
            linarith
          · show target.currentVolume + actualTransferOf volume source target -
                target.currentVolume ≤
              min source.currentVolume (target.capacity - target.currentVolume)
            linarith
  · obtain ⟨hsrc, htgt, -, -⟩ := transfer_normal_spec scenarioBench "beaker_1" "beaker_2" 50
      (mkBeaker "beaker_1" 30 [waterEntry30]) (mkBeaker "beaker_2" 0 [])
      rfl rfl (by decide) (by decide)
      (by norm_num [mkBeaker])
      (by norm_num [actualTransferOf, mkBeaker, min_def])
    have hA : actualTransferOf 50 (mkBeaker "beaker_1" 30 [waterEntry30])
        (mkBeaker "beaker_2" 0 []) = 30 := by
      norm_num [actualTransferOf, mkBeaker, min_def]
    have hsplit : splitContents
        (actualTransferOf 50 (mkBeaker "beaker_1" 30 [waterEntry30]) (mkBeaker "beaker_2" 0 []) /
          (mkBeaker "beaker_1" 30 [waterEntry30]).currentVolume)
        (mkBeaker "beaker_1" 30 [waterEntry30]).contents =
        ([], [{ chemical := waterChemical, volume := 30 }]) := by
      norm_num [actualTransferOf, splitContents, mkBeaker, waterEntry30, min_def, waterChemical]
    refine ⟨?_, ?_, ?_, ?_⟩
    · rw [hsrc]
      simp [hsplit]
    · rw [hsrc]
      simp only [Option.map_some']
      norm_num [actualTransferOf, mkBeaker, min_def]
    · rw [htgt]
      simp only [hsplit]
      simp [mergeContent, mkBeaker, waterEntry30, waterChemical]
    · rw [htgt]
      simp only [Option.map_some']
      norm_num [actualTransferOf, mkBeaker, min_def]

/-- Witness for C2: the clamp instantiated at the concrete 50-out-of-30
scenario. -/
theorem claim_C2_witness :
    ∃ source' target',
      mapGet (transferLiquid scenarioBench "beaker_1" "beaker_2" 50).vessels "beaker_1" =
        some source' ∧
      mapGet (transferLiquid scenarioBench "beaker_1" "beaker_2" 50).vessels "beaker_2" =
        some target' ∧
      (mkBeaker "beaker_1" 30 [waterEntry30]).currentVolume - source'.currentVolume ≤
        min (mkBeaker "beaker_1" 30 [waterEntry30]).currentVolume
          ((mkBeaker "beaker_2" 0 []).capacity - (mkBeaker "beaker_2" 0 []).currentVolume) ∧
      target'.currentVolume - (mkBeaker "beaker_2" 0 []).currentVolume ≤
        min (mkBeaker "beaker_1" 30 [waterEntry30]).currentVolume
          ((mkBeaker "beaker_2" 0 []).capacity - (mkBeaker "beaker_2" 0 []).currentVolume) :=
  claim_C2.1 scenarioBench "beaker_1" "beaker_2" 50
    (mkBeaker "beaker_1" 30 [waterEntry30]) (mkBeaker "beaker_2" 0 [])
    rfl rfl (by decide) (by norm_num [mkBeaker]) (by norm_num [mkBeaker])

/-! ### Claim C3 — proportional removal, merge-by-id, pruning -/

/-- Volume of the first content entry carrying the given chemical id
(`0` when absent). -/
def contentVolume : List VesselContents → String → ℚ
  | [], _ => 0
  | c :: cs, cid => if c.chemical.id = cid then c.volume else contentVolume cs cid

/-- Total volume of the entries carrying the given chemical id. -/
def sumVolumesWithId (ts : List VesselContents) (cid : String) : ℚ :=
  ((ts.filter (fun c => c.chemical.id == cid)).map (fun c => c.volume)).sum

/-- The chemical ids of a content list. -/
def idsOf (l : List VesselContents) : List String := l.map (fun c => c.chemical.id)

theorem contentVolume_append (a b : List VesselContents) (cid : String) :
    contentVolume (a ++ b) cid =
      if cid ∈ idsOf a then contentVolume a cid else contentVolume b cid := by
  induction a with
  | nil => simp [contentVolume, idsOf]
  | cons c cs ih =>
    by_cases hc : c.chemical.id = cid
    · simp [contentVolume, idsOf, hc]
    · simp [contentVolume, idsOf, hc, ih, Ne.symm hc]

theorem contentVolume_eq_zero_of_not_mem (l : List VesselContents) (cid : String)
    (h : cid ∉ idsOf l) : contentVolume l cid = 0 := by
  induction l with
  | nil => rfl
  | cons c cs ih =>
    simp only [idsOf, List.map_cons, List.mem_cons, not_or] at h
    unfold contentVolume
    rw [if_neg (show ¬ c.chemical.id = cid from fun hc => h.1 hc.symm)]
    exact ih (by simpa [idsOf] using h.2)

theorem contentVolume_mergeContent (acc : List VesselContents) (t : VesselContents)
    (cid : String) :
    contentVolume (mergeContent acc t) cid =
      contentVolume acc cid + (if t.chemical.id = cid then t.volume else 0) := by
  unfold mergeContent
  split
  next hany =>
    induction acc with
    | nil => simp at hany
    | cons c cs ih =>
      by_cases hc : c.chemical.id = t.chemical.id
      · unfold updateFirst
        rw [if_pos (by simp [hc])]
        by_cases hcid : c.chemical.id = cid
        · unfold contentVolume
          rw [if_pos hcid, if_pos hcid, if_pos (hc.symm.trans hcid)]
        · unfold contentVolume
          rw [if_neg hcid, if_neg hcid, if_neg (fun h => hcid (hc.trans h)), add_zero]
      · unfold updateFirst
        rw [if_neg (by simp [hc])]
        simp only [List.any_cons, Bool.or_eq_true, beq_iff_eq, hc, false_or] at hany
        by_cases hcid : c.chemical.id = cid
        · unfold contentVolume
          rw [if_pos hcid, if_pos hcid, if_neg (fun h => hc (hcid.trans h.symm)), add_zero]
        · unfold contentVolume
          rw [if_neg hcid, if_neg hcid]
          exact ih hany
  next hany =>
    have hnm : t.chemical.id ∉ idsOf acc := by
      intro hmem
      apply hany
      simp only [idsOf, List.mem_map] at hmem
      obtain ⟨c, hcmem, hid⟩ := hmem
      exact List.any_eq_true.mpr ⟨c, hcmem, by simp [hid]⟩
    rw [contentVolume_append]
    by_cases hcid : t.chemical.id = cid
    · rw [if_neg (hcid ▸ hnm), if_pos hcid]
      rw [contentVolume_eq_zero_of_not_mem acc cid (hcid ▸ hnm)]
      simp [contentVolume, hcid]
    · by_cases hmem : cid ∈ idsOf acc
      · rw [if_pos hmem, if_neg hcid, add_zero]
      · rw [if_neg hmem, if_neg hcid, add_zero,
          contentVolume_eq_zero_of_not_mem acc cid hmem]
        simp [contentVolume, hcid]

theorem contentVolume_foldl_mergeContent (ts : List VesselContents)
    (acc : List VesselContents) (cid : String) :
    contentVolume (ts.foldl mergeContent acc) cid =
      contentVolume acc cid + sumVolumesWithId ts cid := by
  induction ts generalizing acc with
  | nil => simp [sumVolumesWithId, contentVolume]
  | cons t ts ih =>
    rw [List.foldl_cons, ih, contentVolume_mergeContent]
    unfold sumVolumesWithId
    by_cases hcid : t.chemical.id = cid
    · simp only [List.filter_cons, hcid, beq_self_eq_true, if_pos, List.map_cons, List.sum_cons]
      ring
    · simp only [List.filter_cons]
      rw [if_neg hcid]
      simp only [beq_iff_eq, hcid, if_false]
      ring

theorem splitContents_fst_not_mem (frac : ℚ) (l : List VesselContents) (cid : String)
    (h : cid ∉ idsOf l) : contentVolume (splitContents frac l).1 cid = 0 := by
  induction l with
  | nil => rfl
  | cons c cs ih =>
    simp only [idsOf, List.map_cons, List.mem_cons, not_or] at h
    have hrest := ih (by simpa [idsOf] using h.2)
    have hne : ¬ c.chemical.id = cid := fun hc => h.1 hc.symm
    simp only [splitContents]
    by_cases hkeep : c.volume - c.volume * frac > 1/100
    · rw [if_pos hkeep, contentVolume_append, if_neg (by simp [idsOf]; exact h.1)]
      exact hrest
    · rw [if_neg hkeep, List.nil_append]
      exact hrest

theorem splitContents_snd_not_mem (frac : ℚ) (l : List VesselContents) (cid : String)
    (h : cid ∉ idsOf l) : sumVolumesWithId (splitContents frac l).2 cid = 0 := by
  induction l with
  | nil => rfl
  | cons c cs ih =>
    simp only [idsOf, List.map_cons, List.mem_cons, not_or] at h
    have hrest := ih (by simpa [idsOf] using h.2)
    simp only [splitContents]
    unfold sumVolumesWithId at hrest ⊢
    rw [List.filter_append, List.map_append, List.sum_append, hrest, add_zero]
    have hne : ¬ c.chemical.id = cid := fun hc => h.1 hc.symm
    split
    · simp [hne]
    · simp

theorem splitContents_fst_contentVolume (frac : ℚ) (l : List VesselContents)
    (hnodup : (idsOf l).Nodup) (c : VesselContents) (hc : c ∈ l) :
    contentVolume (splitContents frac l).1 c.chemical.id =
      if c.volume - c.volume * frac > 1/100 then c.volume - c.volume * frac else 0 := by
  induction l with
  | nil => cases hc
  | cons d ds ih =>
    simp only [idsOf, List.map_cons, List.nodup_cons] at hnodup
    rcases List.mem_cons.mp hc with rfl | hmem
    · simp only [splitContents]
      by_cases hkeep : c.volume - c.volume * frac > 1/100
      · rw [if_pos hkeep, contentVolume_append, if_pos (by simp [idsOf])]
        unfold contentVolume
        rw [if_pos rfl, if_pos hkeep]
      · rw [if_neg hkeep, List.nil_append, if_neg hkeep]
        exact splitContents_fst_not_mem frac ds c.chemical.id
          (by simpa [idsOf] using hnodup.1)
    · have hne : d.chemical.id ≠ c.chemical.id := fun h =>
        hnodup.1 (h ▸ List.mem_map_of_mem (fun x => x.chemical.id) hmem)
      have ihn := ih (by simpa [idsOf] using hnodup.2) hmem
      simp only [splitContents]
      by_cases hkeep : d.volume - d.volume * frac > 1/100
      · rw [if_pos hkeep, contentVolume_append,
          if_neg (by simp [idsOf]; exact fun h => hne h.symm)]
        exact ihn
      · rw [if_neg hkeep, List.nil_append]
        exact ihn

theorem splitContents_snd_sum (frac : ℚ) (l : List VesselContents)
    (hnodup : (idsOf l).Nodup) (c : VesselContents) (hc : c ∈ l) :
    sumVolumesWithId (splitContents frac l).2 c.chemical.id =
      if c.volume * frac > 1/100 then c.volume * frac else 0 := by
  induction l with
  | nil => cases hc
  | cons d ds ih =>
    simp only [idsOf, List.map_cons, List.nodup_cons] at hnodup
    rcases List.mem_cons.mp hc with rfl | hmem
    · have hzero := splitContents_snd_not_mem frac ds c.chemical.id
        (by simpa [idsOf] using hnodup.1)
      simp only [splitContents]
      unfold sumVolumesWithId at hzero ⊢
      rw [List.filter_append, List.map_append, List.sum_append, hzero, add_zero]
      by_cases htr : c.volume * frac > 1/100
      · rw [if_pos htr, if_pos htr]
        simp
      · rw [if_neg htr, if_neg htr]
        simp
    · have hne : d.chemical.id ≠ c.chemical.id := fun h =>
        hnodup.1 (h ▸ List.mem_map_of_mem (fun x => x.chemical.id) hmem)
      have ihn := ih (by simpa [idsOf] using hnodup.2) hmem
      simp only [splitContents]
      unfold sumVolumesWithId at ihn ⊢
      rw [List.filter_append, List.map_append, List.sum_append, ihn]
      by_cases htr : d.volume * frac > 1/100
      · rw [if_pos htr]
        simp [hne]
      · rw [if_neg htr]
        simp

/-- Claim C3 (amended): in an effective transfer whose destination is a
distinct vessel other than the filtration `collection_beaker`, the same
fraction `actualTransfer / source.currentVolume` is removed from every source
entry — an entry keeps exactly `volume - volume * frac`, and is pruned when
that residue is a near-zero amount (at most `0.01`); the corresponding
absolute sub-amount `volume * frac` (when above the `0.01` threshold) is added
to the destination entry with the same chemical id (merged, not duplicated).
The two exclusions are forced by `claim_C3_counterexample`: on a pour into the
collection beaker the destination is restored and gains nothing, and on a
self-transfer the final write overwrites the proportional removal. -/
theorem claim_C3 (s : Store) (sourceId targetId : String) (volume : ℚ)
    (source target : LabVessel)
    (hs : mapGet s.vessels sourceId = some source)
    (ht : mapGet s.vessels targetId = some target)
    (hne : sourceId ≠ targetId)
    (hcb : targetId ≠ "collection_beaker")
    (h1 : ¬ source.currentVolume ≤ 0)
    (h2 : ¬ actualTransferOf volume source target ≤ 0)
    (hnodup : (idsOf source.contents).Nodup) :
    ∃ source' target',
      mapGet (transferLiquid s sourceId targetId volume).vessels sourceId = some source' ∧
      mapGet (transferLiquid s sourceId targetId volume).vessels targetId = some target' ∧
      ∀ c ∈ source.contents,
        (contentVolume source'.contents c.chemical.id =
          if c.volume -
              c.volume * (actualTransferOf volume source target / source.currentVolume) >
              1/100 then
            c.volume - c.volume * (actualTransferOf volume source target / source.currentVolume)
          else 0) ∧
        (c.volume * (actualTransferOf volume source target / source.currentVolume) > 1/100 →
          contentVolume target'.contents c.chemical.id =
            contentVolume target.contents c.chemical.id +
              c.volume * (actualTransferOf volume source target / source.currentVolume)) := by
  obtain ⟨hsrc, htgt, -, -⟩ :=
    transfer_normal_spec s sourceId targetId volume source target hs ht hne hcb h1 h2
  refine ⟨_, _, hsrc, htgt, ?_⟩
  intro c hcmem
  constructor
  · exact splitContents_fst_contentVolume
      (actualTransferOf volume source target / source.currentVolume)
      source.contents hnodup c hcmem
  · intro hgt
    show contentVolume
        (List.foldl mergeContent target.contents
          (splitContents (actualTransferOf volume source target / source.currentVolume)
            source.contents).2)
        c.chemical.id = _
    rw [contentVolume_foldl_mergeContent,
      splitContents_snd_sum (actualTransferOf volume source target / source.currentVolume)
        source.contents hnodup c hcmem,
      if_pos hgt]

/-- Witness for C3: a concrete half-transfer out of a two-chemical source.
Beaker 1 holds 20 mL of sodium hydroxide and 40 mL of water; transferring 30 of
its 60 mL moves half of each entry into beaker 2 (which already holds 10 mL of
water). -/
theorem claim_C3_witness :
    ∃ source' target',
      mapGet (transferLiquid
        ({ baseStore with vessels :=
            [("beaker_1", mkBeaker "beaker_1" 60
                [{ chemical := sodiumHydroxide, volume := 20 },
                 { chemical := waterChemical, volume := 40 }]),
             ("beaker_2", mkBeaker "beaker_2" 10
                [{ chemical := waterChemical, volume := 10 }])] })
        "beaker_1" "beaker_2" 30).vessels "beaker_1" = some source' ∧
      mapGet (transferLiquid
        ({ baseStore with vessels :=
            [("beaker_1", mkBeaker "beaker_1" 60
                [{ chemical := sodiumHydroxide, volume := 20 },
                 { chemical := waterChemical, volume := 40 }]),
             ("beaker_2", mkBeaker "beaker_2" 10
                [{ chemical := waterChemical, volume := 10 }])] })
        "beaker_1" "beaker_2" 30).vessels "beaker_2" = some target' ∧
      contentVolume source'.contents "water" = 20 ∧
      contentVolume target'.contents "water" = 30 := by
  obtain ⟨source', target', hsrc, htgt, hall⟩ := claim_C3
    ({ baseStore with vessels :=
        [("beaker_1", mkBeaker "beaker_1" 60
            [{ chemical := sodiumHydroxide, volume := 20 },
             { chemical := waterChemical, volume := 40 }]),
         ("beaker_2", mkBeaker "beaker_2" 10
            [{ chemical := waterChemical, volume := 10 }])] })
    "beaker_1" "beaker_2" 30
    (mkBeaker "beaker_1" 60
      [{ chemical := sodiumHydroxide, volume := 20 },
       { chemical := waterChemical, volume := 40 }])
    (mkBeaker "beaker_2" 10 [{ chemical := waterChemical, volume := 10 }])
    rfl rfl (by decide) (by decide)
    (by norm_num [mkBeaker])
    (by norm_num [actualTransferOf, mkBeaker, min_def])
    (by decide)
  have h1 := (hall { chemical := waterChemical, volume := 40 } (by norm_num [mkBeaker])).1
  have h2 := (hall { chemical := waterChemical, volume := 40 } (by norm_num [mkBeaker])).2
  refine ⟨source', target', hsrc, htgt, ?_, ?_⟩
  · rw [show waterChemical.id = "water" from rfl] at h1
    rw [h1]
    norm_num [actualTransferOf, mkBeaker, min_def]
  · have h2' := h2 (by norm_num [actualTransferOf, mkBeaker, min_def])
    rw [show waterChemical.id = "water" from rfl] at h2'
    rw [h2']
    norm_num [actualTransferOf, mkBeaker, min_def, contentVolume, waterChemical]

/-- Counterexample for C3 as frozen: the claim quantifies over every
`transferLiquid` call with actual transferred amount `a > 0`, but (a) a pour
into the filtration `collection_beaker` is effective (the clamped amount is
10 and the water sub-amount 10 exceeds the `0.01` threshold) yet the
destination keeps a water volume of 0 instead of gaining the sub-amount, and
(b) an effective self-transfer of 10 out of a 30 mL water beaker leaves the
vessel's water entry at 40 instead of the fraction-reduced 20. -/
theorem claim_C3_counterexample :
    (actualTransferOf 10 (mkBeaker "beaker_1" 30 [waterEntry30]) collectionBeaker > 0) ∧
    (waterEntry30.volume *
        (actualTransferOf 10 (mkBeaker "beaker_1" 30 [waterEntry30]) collectionBeaker /
          (mkBeaker "beaker_1" 30 [waterEntry30]).currentVolume) > 1/100) ∧
    ((mapGet (transferLiquid filtrationBench "beaker_1" "collection_beaker" 10).vessels
        "collection_beaker").map (fun v => contentVolume v.contents "water") = some 0) ∧
    ¬ ((0 : ℚ) = contentVolume collectionBeaker.contents "water" +
        waterEntry30.volume *
          (actualTransferOf 10 (mkBeaker "beaker_1" 30 [waterEntry30]) collectionBeaker /
            (mkBeaker "beaker_1" 30 [waterEntry30]).currentVolume)) ∧
    ((mapGet (transferLiquid scenarioBench "beaker_1" "beaker_1" 10).vessels
        "beaker_1").map (fun v => contentVolume v.contents "water") = some 40) ∧
    ¬ ((40 : ℚ) = waterEntry30.volume - waterEntry30.volume *
        (actualTransferOf 10 (mkBeaker "beaker_1" 30 [waterEntry30])
            (mkBeaker "beaker_1" 30 [waterEntry30]) /
          (mkBeaker "beaker_1" 30 [waterEntry30]).currentVolume)) := by
  obtain ⟨hcoll, -, -, -⟩ := transferToCollection_spec filtrationBench "beaker_1" 10
    (mkBeaker "beaker_1" 30 [waterEntry30]) collectionBeaker
    rfl rfl (by decide)
    (by norm_num [mkBeaker])
    (by norm_num [actualTransferOf, mkBeaker, collectionBeaker, min_def])
  have hself := transfer_self_spec scenarioBench "beaker_1" 10
    (mkBeaker "beaker_1" 30 [waterEntry30])
    rfl (by decide)
    (by norm_num [mkBeaker])
    (by norm_num [actualTransferOf, mkBeaker, min_def])
  have hsplit : splitContents
      (actualTransferOf 10 (mkBeaker "beaker_1" 30 [waterEntry30])
          (mkBeaker "beaker_1" 30 [waterEntry30]) /
        (mkBeaker "beaker_1" 30 [waterEntry30]).currentVolume)
      (mkBeaker "beaker_1" 30 [waterEntry30]).contents =
      ([{ chemical := waterChemical, volume := 20 }],
       [{ chemical := waterChemical, volume := 10 }]) := by
    norm_num [actualTransferOf, splitContents, mkBeaker, waterEntry30, min_def, waterChemical]
  refine ⟨?_, ?_, ?_, ?_, ?_, ?_⟩
  · norm_num [actualTransferOf, mkBeaker, collectionBeaker, min_def]
  · norm_num [actualTransferOf, mkBeaker, collectionBeaker, min_def, waterEntry30]
  · rw [hcoll]
    simp [collectionBeaker, contentVolume]
  · norm_num [actualTransferOf, mkBeaker, collectionBeaker, min_def, waterEntry30,
      contentVolume]
  · rw [hself]
    simp only [Option.map_some', hsplit]
    simp [mergeContent, updateFirst, contentVolume, mkBeaker, waterEntry30, waterChemical]
    norm_num
  · norm_num [actualTransferOf, mkBeaker, min_def, waterEntry30]

/-! ### Claim C4 — sandbox reaction application -/

/-- The hydrochloric acid entry of the `CHEMICALS` catalogue. -/
def hydrochloricAcid : Chemical :=
  { id := "hydrochloric_acid", name := "Hydrochloric Acid", formula := some "HCl",
    color := "#c8e6c9", type := ChemicalType.acid, concentration := some 1 }

/-- Contents of the sandbox demo beaker: 25 mL of acid and 25 mL of base. -/
def demoContents : List VesselContents :=
  [{ chemical := hydrochloricAcid, volume := 25 },
   { chemical := sodiumHydroxide, volume := 25 }]

/-- A sandbox bench holding the demo beaker at 50 mL. -/
def demoStore : Store :=
  { baseStore with vessels := [("beaker_1", mkBeaker "beaker_1" 50 demoContents)] }

theorem findPairReaction_sound (rs : List Reaction) (c : VesselContents)
    (ds : List VesselContents) (r : Reaction)
    (h : findPairReaction rs c ds = some r) :
    ∃ d ∈ ds, findReaction rs c.chemical.type d.chemical.type = some r := by
  induction ds with
  | nil => cases h
  | cons d ds ih =>
    unfold findPairReaction at h
    cases hfd : findReaction rs c.chemical.type d.chemical.type with
    | some r' =>
      rw [hfd] at h
      cases h
      exact ⟨d, List.mem_cons_self d ds, hfd⟩
    | none =>
      rw [hfd] at h
      obtain ⟨d', hd', hfd'⟩ := ih h
      exact ⟨d', List.mem_cons_of_mem d hd', hfd'⟩

/-- Claim C4: the sandbox matcher is order-independent on its pair and only
fires on an unordered pair of distinct entries of the vessel, and
`applyReaction` replaces the vessel's entire content list with the rule's
products, each assigned exactly `currentVolume / products.length` of the
vessel's prior volume (the volume field itself is not changed). -/
theorem claim_C4 :
    (∀ (rs : List Reaction) (t1 t2 : ChemicalType),
      findReaction rs t1 t2 = findReaction rs t2 t1) ∧
    (∀ (rs : List Reaction) (contents : List VesselContents) (r : Reaction),
      checkReaction rs contents = some r →
      ∃ c d, List.Sublist [c, d] contents ∧
        findReaction rs c.chemical.type d.chemical.type = some r) ∧
    (∀ (s : Store) (vesselId : String) (r : Reaction) (vessel : LabVessel),
      mapGet s.vessels vesselId = some vessel →
      mapGet (applyReaction s vesselId r).vessels vesselId =
        some { vessel with contents := r.products.map (fun product =>
          { chemical := product,
            volume := vessel.currentVolume / (r.products.length : ℚ) }) }) := by
  refine ⟨?_, ?_, ?_⟩
  · intro rs t1 t2
    induction rs with
    | nil => rfl
    | cons r rest ih =>
      unfold findReaction
      rw [ih, Bool.or_comm]
  · intro rs contents r h
    induction contents with
    | nil => cases h
    | cons c rest ih =>
      unfold checkReaction at h
      cases hfp : findPairReaction rs c rest with
      | some r' =>
        rw [hfp] at h
        cases h
        obtain ⟨d, hd, hfd⟩ := findPairReaction_sound rs c rest r hfp
        exact ⟨c, d, List.Sublist.cons₂ c (List.singleton_sublist.mpr hd), hfd⟩
      | none =>
        rw [hfp] at h
        obtain ⟨c', d', hsub, hfd⟩ := ih h
        exact ⟨c', d', hsub.cons c, hfd⟩
  · intro s vesselId r vessel h
    unfold applyReaction
    rw [h]
    simp only []
    rw [mapGet_mapSet_self]

/-- Witness for C4: in the demo beaker the matcher fires on the acid/base pair
with the acid-base rule, and applying that rule splits the prior 50 mL evenly
over the two products (water and salt). -/
theorem claim_C4_witness :
    (∃ c d, List.Sublist [c, d] demoContents ∧
      findReaction REACTIONS c.chemical.type d.chemical.type = some acidBaseRule) ∧
    mapGet (applyReaction demoStore "beaker_1" acidBaseRule).vessels "beaker_1" =
      some { mkBeaker "beaker_1" 50 demoContents with
        contents := acidBaseRule.products.map (fun product =>
          { chemical := product,
            volume := (mkBeaker "beaker_1" 50 demoContents).currentVolume /
              (acidBaseRule.products.length : ℚ) }) } :=
  ⟨claim_C4.2.1 REACTIONS demoContents acidBaseRule (by decide),
   claim_C4.2.2 demoStore "beaker_1" acidBaseRule
     (mkBeaker "beaker_1" 50 demoContents) rfl⟩

/-! ### Claim C5 — signature-key ranking of `checkExperimentReaction` -/

/-- Claim C5: the candidate keys for chemicals `{naoh, phenolphthalein}` and
action `{heat}` rank the full chemicals+actions key strictly before the
chemicals-only key; the exact pass probes the table in that rank order and
stops at the first hit (so whenever `"naoh+phenolphthalein+heat"` is a defined
key it is selected, regardless of whether `"naoh+phenolphthalein"` is also
defined); and the superset pass runs only when no generated key hits. -/
theorem claim_C5 :
    (generateKeys ["naoh", "phenolphthalein"] ["heat"] =
      ["naoh+phenolphthalein+heat", "naoh+phenolphthalein+heat",
       "naoh+phenolphthalein+heat", "naoh+phenolphthalein+heat",
       "naoh+phenolphthalein", "naoh+phenolphthalein"]) ∧
    (∀ (tbl : List (String × ExperimentReaction)) (r : ExperimentReaction),
      lookupReaction tbl "naoh+phenolphthalein+heat" = some r →
      findExperimentMatch tbl ["naoh", "phenolphthalein"] ["heat"] =
        some ("naoh+phenolphthalein+heat", r)) ∧
    (∀ (tbl : List (String × ExperimentReaction)) (ks : List String)
       (k : String) (r : ExperimentReaction),
      firstExactMatch tbl ks = some (k, r) →
      ∃ pre post, ks = pre ++ k :: post ∧
        (∀ k' ∈ pre, lookupReaction tbl k' = none) ∧
        lookupReaction tbl k = some r) ∧
    (∀ (tbl : List (String × ExperimentReaction)) (chemicals actions : List String),
      firstExactMatch tbl (generateKeys chemicals actions) = none →
      findExperimentMatch tbl chemicals actions = supersetMatch chemicals actions tbl) := by
  refine ⟨by decide, ?_, ?_, ?_⟩
  · intro tbl r h
    unfold findExperimentMatch
    have hg : generateKeys ["naoh", "phenolphthalein"] ["heat"] =
        ["naoh+phenolphthalein+heat", "naoh+phenolphthalein+heat",
         "naoh+phenolphthalein+heat", "naoh+phenolphthalein+heat",
         "naoh+phenolphthalein", "naoh+phenolphthalein"] := by decide
    rw [hg]
    unfold firstExactMatch
    rw [h]
  · intro tbl ks
    induction ks with
    | nil =>
      intro k r h
      cases h
    | cons k0 ks ih =>
      intro k r h
      unfold firstExactMatch at h
      cases hl : lookupReaction tbl k0 with
      | some r0 =>
        rw [hl] at h
        cases h
        refine ⟨[], ks, rfl, ?_, hl⟩
        intro k' hk'
        cases hk'
      | none =>
        rw [hl] at h
        obtain ⟨pre, post, hks, hpre, hk⟩ := ih k r h
        refine ⟨k0 :: pre, post, by rw [hks]; rfl, ?_, hk⟩
        intro k' hk'
        rcases List.mem_cons.mp hk' with rfl | hk'
        · exact hl
        · exact hpre k' hk'
  · intro tbl chemicals actions h
    unfold findExperimentMatch
    rw [h]

/-- Witness for C5: a concrete table defining both
`"naoh+phenolphthalein+heat"` and `"naoh+phenolphthalein"`; the matcher picks
the former. -/
theorem claim_C5_witness :
    findExperimentMatch
      [("naoh+phenolphthalein+heat",
        { observation := "specific", explanation := "", success := true }),
       ("naoh+phenolphthalein",
        { observation := "loose", explanation := "", success := false })]
      ["naoh", "phenolphthalein"] ["heat"] =
      some ("naoh+phenolphthalein+heat",
        { observation := "specific", explanation := "", success := true }) :=
  claim_C5.2.1
    [("naoh+phenolphthalein+heat",
      { observation := "specific", explanation := "", success := true }),
     ("naoh+phenolphthalein",
      { observation := "loose", explanation := "", success := false })]
    { observation := "specific", explanation := "", success := true }
    (by decide)

/-! ### Claim C6 — idempotence of the accumulation inserts -/

/-- Claim C6: `addApparatusToExperiment`, `addChemicalToExperiment` and
`performExperimentAction` are idempotent: a second call with the same id
returns the state of the first call unchanged. -/
theorem claim_C6 (s : Store) (id : String) :
    addApparatusToExperiment (addApparatusToExperiment s id) id =
      addApparatusToExperiment s id ∧
    addChemicalToExperiment (addChemicalToExperiment s id) id =
      addChemicalToExperiment s id ∧
    performExperimentAction (performExperimentAction s id) id =
      performExperimentAction s id := by
  refine ⟨?_, ?_, ?_⟩
  · by_cases h : id ∈ s.placedApparatus
    · simp [addApparatusToExperiment, h]
    · simp [addApparatusToExperiment, h]
  · by_cases h : id ∈ s.addedChemicals
    · simp [addChemicalToExperiment, h]
    · simp [addChemicalToExperiment, h]
  · by_cases h : id ∈ s.experimentActions
    · simp [performExperimentAction, h]
    · simp [performExperimentAction, h]

/-- Witness for C6: idempotence at a concrete state and id. -/
theorem claim_C6_witness :
    addApparatusToExperiment (addApparatusToExperiment baseStore "beaker") "beaker" =
      addApparatusToExperiment baseStore "beaker" ∧
    addChemicalToExperiment (addChemicalToExperiment baseStore "water") "water" =
      addChemicalToExperiment baseStore "water" ∧
    performExperimentAction (performExperimentAction baseStore "stir") "stir" =
      performExperimentAction baseStore "stir" :=
  ⟨(claim_C6 baseStore "beaker").1, (claim_C6 baseStore "water").2.1,
   (claim_C6 baseStore "stir").2.2⟩

/-! ### Claim C7 — two-phase salt-dissolution reset semantics -/

/-- The state right after phase A of the salt-dissolution experiment has been
performed (water and salt added, stirred), before the reaction check. -/
def saltPhaseA : Store :=
  { baseStore with
      currentExperiment := some saltDissolutionExperiment,
      placedApparatus := ["beaker", "glass-rod"],
      addedChemicals := ["water", "salt"],
      experimentActions := ["stir"] }

/-- Claim C7: completing phase A sets `saltTested` and raises the reset
prompt; `resetExperiment` then empties the three accumulation sets while
keeping `saltTested` and setting `resetAfterSaltTest`; completing phase B
(water + sand + stir, via the ordinary add/perform operations) marks the
experiment complete — `salt-dissolution` enters the completion set — with no
second reset. -/
theorem claim_C7 :
    (checkExperimentReaction saltPhaseA).saltTested = true ∧
    (checkExperimentReaction saltPhaseA).sandTested = false ∧
    (checkExperimentReaction saltPhaseA).showResetPrompt = true ∧
    (checkExperimentReaction saltPhaseA).completedExperiments = [] ∧
    (resetExperiment (checkExperimentReaction saltPhaseA)).placedApparatus = [] ∧
    (resetExperiment (checkExperimentReaction saltPhaseA)).addedChemicals = [] ∧
    (resetExperiment (checkExperimentReaction saltPhaseA)).experimentActions = [] ∧
    (resetExperiment (checkExperimentReaction saltPhaseA)).saltTested = true ∧
    (resetExperiment (checkExperimentReaction saltPhaseA)).resetAfterSaltTest = true ∧
    (resetExperiment (checkExperimentReaction saltPhaseA)).showResetPrompt = false ∧
    (checkExperimentReaction
      (performExperimentAction
        (addChemicalToExperiment
          (addChemicalToExperiment (resetExperiment (checkExperimentReaction saltPhaseA))
            "water")
          "sand")
        "stir")).saltTested = true ∧
    (checkExperimentReaction
      (performExperimentAction
        (addChemicalToExperiment
          (addChemicalToExperiment (resetExperiment (checkExperimentReaction saltPhaseA))
            "water")
          "sand")
        "stir")).sandTested = true ∧
    (checkExperimentReaction
      (performExperimentAction
        (addChemicalToExperiment
          (addChemicalToExperiment (resetExperiment (checkExperimentReaction saltPhaseA))
            "water")
          "sand")
        "stir")).completedExperiments = ["salt-dissolution"] ∧
    (checkExperimentReaction
      (performExperimentAction
        (addChemicalToExperiment
          (addChemicalToExperiment (resetExperiment (checkExperimentReaction saltPhaseA))
            "water")
          "sand")
        "stir")).showResetPrompt = false := by
  decide

/-! ### Claim C8 — drop-counted neutralization threshold -/

/-- The neutralization bench right before dropping HCl: NaOH and
phenolphthalein added, no drops yet. -/
def neutralizationStart : Store :=
  { baseStore with
      currentExperiment := some neutralizationExperiment,
      placedApparatus := ["beaker", "dropper"],
      addedChemicals := ["naoh", "phenolphthalein"] }

/-- `incrementNeutralizationDrops` applied `n` times. -/
def iterateDrops : ℕ → Store → Store
  | 0, s => s
  | n + 1, s => iterateDrops n (incrementNeutralizationDrops s)

/-- Claim C8: for drop counts 1-4 the interpolation progress is the subtle
`0.08 · count`, every colour channel moves from the pink base by less than the
small bound `1/5`, and iterating the drop action from the fresh bench leaves
`neutralizationComplete` false; the fifth drop snaps the colour to the fully
shifted colourless value, sets `neutralizationComplete`, and (via the
completion's reaction check) records the experiment as complete.  The boolean
is authoritative: whenever it is set the displayed colour is the colourless
value regardless of the count. -/
theorem claim_C8 :
    (∀ n : ℕ, 1 ≤ n → n ≤ 4 →
      neutralizationDisplayProgress n = (n : ℚ) * (2/25) ∧
      |(neutralizationLiquidColor false n).r - pinkBase.r| < 1/5 ∧
      |(neutralizationLiquidColor false n).g - pinkBase.g| < 1/5 ∧
      |(neutralizationLiquidColor false n).b - pinkBase.b| < 1/5) ∧
    (neutralizationLiquidColor false 5 = colourlessTarget) ∧
    (∀ n : ℕ, neutralizationLiquidColor true n = colourlessTarget) ∧
    ((iterateDrops 4 neutralizationStart).neutralizationComplete = false ∧
     (iterateDrops 4 neutralizationStart).neutralizationDropCount = 4 ∧
     (iterateDrops 5 neutralizationStart).neutralizationComplete = true ∧
     (iterateDrops 5 neutralizationStart).neutralizationDropCount = 5 ∧
     (iterateDrops 5 neutralizationStart).completedExperiments = ["neutralization"]) := by
  refine ⟨?_, ?_, fun n => rfl, by decide⟩
  · intro n h1 h4
    interval_cases n <;>
      refine ⟨by norm_num [neutralizationDisplayProgress], ?_, ?_, ?_⟩ <;>
        (refine abs_lt.mpr ⟨?_, ?_⟩ <;>
          norm_num [neutralizationLiquidColor, neutralizationDisplayProgress, lerpColor,
            pinkBase, colourlessTarget])
  · norm_num [neutralizationLiquidColor, neutralizationDisplayProgress, lerpColor,
      pinkBase, colourlessTarget]

/-- Witness for C8: the sub-epsilon colour movement at the fourth drop. -/
theorem claim_C8_witness :
    neutralizationDisplayProgress 4 = (4 : ℚ) * (2/25) ∧
    |(neutralizationLiquidColor false 4).r - pinkBase.r| < 1/5 ∧
    |(neutralizationLiquidColor false 4).g - pinkBase.g| < 1/5 ∧
    |(neutralizationLiquidColor false 4).b - pinkBase.b| < 1/5 :=
  claim_C8.1 4 (by decide) (by decide)

/-! ### Claim C9 — per-tick heating and cooling -/

/-- Claim C9: with the burner on, a vessel strictly inside the heating radius
is driven toward the 120 cap by `delta * heatingRate distance`, never dropping
and never exceeding the cap, where the rate is the affine function
`15 - (150/7) * distance` of the distance to the source centre — falling off
linearly (monotonically decreasing) in the distance.  A vessel outside the
radius decays toward the 25 ambient at the fixed rate 3, and every vessel
decays toward 25 at the fixed rate 5 while the burner is off; in both decay
regimes the temperature never increases and never undershoots the ambient. -/
theorem claim_C9 :
    (∀ distance : ℚ, heatingRate distance = 15 - (150/7) * distance) ∧
    (∀ d1 d2 : ℚ, d1 ≤ d2 → heatingRate d2 ≤ heatingRate d1) ∧
    (∀ distance temperature delta : ℚ, 0 ≤ delta → distance < 7/10 → temperature ≤ 120 →
      vesselTemperatureStep true distance temperature delta =
        min 120 (temperature + delta * heatingRate distance) ∧
      temperature ≤ vesselTemperatureStep true distance temperature delta ∧
      vesselTemperatureStep true distance temperature delta ≤ 120) ∧
    (∀ distance temperature delta : ℚ, 0 ≤ delta → ¬ distance < 7/10 → 25 ≤ temperature →
      vesselTemperatureStep true distance temperature delta =
        (if temperature > 25 then max 25 (temperature - delta * 3) else temperature) ∧
      vesselTemperatureStep true distance temperature delta ≤ temperature ∧
      25 ≤ vesselTemperatureStep true distance temperature delta) ∧
    (∀ distance temperature delta : ℚ, 0 ≤ delta → 25 ≤ temperature →
      vesselTemperatureStep false distance temperature delta =
        (if temperature > 25 then max 25 (temperature - delta * 5) else temperature) ∧
      vesselTemperatureStep false distance temperature delta ≤ temperature ∧
      25 ≤ vesselTemperatureStep false distance temperature delta) := by
  refine ⟨?_, ?_, ?_, ?_, ?_⟩
  · intro distance
    unfold heatingRate heatingDistanceConst
    ring
  · intro d1 d2 h
    unfold heatingRate heatingDistanceConst
    have hdiv : d1 / (7/10) ≤ d2 / (7/10) := by
      apply div_le_div_of_nonneg_right h
      norm_num
    nlinarith
  · intro distance temperature delta hd hlt hcap
    have hrate : 0 < heatingRate distance := by
      unfold heatingRate heatingDistanceConst
      have h7 : distance / (7/10) < 1 := by
        rw [div_lt_one (by norm_num)]
        linarith
      nlinarith
    have hstep : vesselTemperatureStep true distance temperature delta =
        min 120 (temperature + delta * heatingRate distance) := by
      unfold vesselTemperatureStep
      rw [show heatingDistanceConst = 7/10 from rfl]
      simp [hlt, heatingRate, heatingDistanceConst]
    refine ⟨hstep, ?_, ?_⟩
    · rw [hstep]
      exact le_min hcap (by nlinarith)
    · rw [hstep]
      exact min_le_left _ _
  · intro distance temperature delta hd hge hamb
    have hstep : vesselTemperatureStep true distance temperature delta =
        (if temperature > 25 then max 25 (temperature - delta * 3) else temperature) := by
      unfold vesselTemperatureStep
      rw [show heatingDistanceConst = 7/10 from rfl]
      simp [hge]
    refine ⟨hstep, ?_, ?_⟩
    · rw [hstep]
      split
      · exact max_le (by linarith) (by linarith)
      · exact le_refl _
    · rw [hstep]
      split
      · exact le_max_left _ _
      · exact hamb
  · intro distance temperature delta hd hamb
    have hstep : vesselTemperatureStep false distance temperature delta =
        (if temperature > 25 then max 25 (temperature - delta * 5) else temperature) := by
      unfold vesselTemperatureStep
      simp
    refine ⟨hstep, ?_, ?_⟩
    · rw [hstep]
      split
      · exact max_le (by linarith) (by linarith)
      · exact le_refl _
    · rw [hstep]
      split
      · exact le_max_left _ _
      · exact hamb

/-- Witness for C9: heating at distance 0.35 and cooling outside the radius,
one second per frame, from room temperature and from 40 degrees. -/
theorem claim_C9_witness :
    (vesselTemperatureStep true (7/20) 25 1 =
        min 120 (25 + 1 * heatingRate (7/20)) ∧
      (25 : ℚ) ≤ vesselTemperatureStep true (7/20) 25 1 ∧
      vesselTemperatureStep true (7/20) 25 1 ≤ 120) ∧
    (vesselTemperatureStep true 2 40 1 =
        (if (40 : ℚ) > 25 then max 25 (40 - 1 * 3) else 40) ∧
      vesselTemperatureStep true 2 40 1 ≤ 40 ∧
      (25 : ℚ) ≤ vesselTemperatureStep true 2 40 1) :=
  ⟨claim_C9.2.2.1 (7/20) 25 1 (by norm_num) (by norm_num) (by norm_num),
   claim_C9.2.2.2.1 2 40 1 (by norm_num) (by norm_num) (by norm_num)⟩

/-! ### Claim C10 — pours into the collection beaker feed the filtration buffer -/

/-- Claim C10: an effective `transferLiquid` into `collection_beaker` leaves
the collection beaker exactly as it was (contents and volume), adds the
clamped transferred amount to `pendingFiltrationVolume` instead, removes that
amount from the source, and inserts the `pour` action when (and only when) it
is not already present. -/
theorem claim_C10 (s : Store) (sourceId : String) (volume : ℚ)
    (source target : LabVessel)
    (hs : mapGet s.vessels sourceId = some source)
    (ht : mapGet s.vessels "collection_beaker" = some target)
    (hne : sourceId ≠ "collection_beaker")
    (h1 : ¬ source.currentVolume ≤ 0)
    (h2 : ¬ actualTransferOf volume source target ≤ 0) :
    mapGet (transferLiquid s sourceId "collection_beaker" volume).vessels
      "collection_beaker" = some target ∧
    (transferLiquid s sourceId "collection_beaker" volume).pendingFiltrationVolume =
      s.pendingFiltrationVolume + actualTransferOf volume source target ∧
    (mapGet (transferLiquid s sourceId "collection_beaker" volume).vessels
      sourceId).map LabVessel.currentVolume =
      some (source.currentVolume - actualTransferOf volume source target) ∧
    (transferLiquid s sourceId "collection_beaker" volume).experimentActions =
      (if s.experimentActions.contains "pour" then s.experimentActions
       else s.experimentActions ++ ["pour"]) := by
  obtain ⟨hcoll, hpending, hsrc, hactions⟩ :=
    transferToCollection_spec s sourceId volume source target hs ht hne h1 h2
  refine ⟨hcoll, hpending, ?_, hactions⟩
  rw [hsrc]
  rfl

/-- Witness for C10: pouring 10 mL toward the collection beaker diverts all
10 mL into the filtration buffer, drains the source by that amount, leaves
the collection beaker untouched, and records the `pour` action. -/
theorem claim_C10_witness :
    mapGet (transferLiquid filtrationBench "beaker_1" "collection_beaker" 10).vessels
      "collection_beaker" = some collectionBeaker ∧
    (transferLiquid filtrationBench "beaker_1" "collection_beaker" 10).pendingFiltrationVolume =
      filtrationBench.pendingFiltrationVolume +
        actualTransferOf 10 (mkBeaker "beaker_1" 30 [waterEntry30]) collectionBeaker ∧
    (mapGet (transferLiquid filtrationBench "beaker_1" "collection_beaker" 10).vessels
      "beaker_1").map LabVessel.currentVolume =
      some ((mkBeaker "beaker_1" 30 [waterEntry30]).currentVolume -
        actualTransferOf 10 (mkBeaker "beaker_1" 30 [waterEntry30]) collectionBeaker) ∧
    (transferLiquid filtrationBench "beaker_1" "collection_beaker" 10).experimentActions =
      (if filtrationBench.experimentActions.contains "pour" then
        filtrationBench.experimentActions
       else filtrationBench.experimentActions ++ ["pour"]) :=
  claim_C10 filtrationBench "beaker_1" 10
    (mkBeaker "beaker_1" 30 [waterEntry30]) collectionBeaker
    rfl rfl (by decide)
    (by norm_num [mkBeaker])
    (by norm_num [actualTransferOf, mkBeaker, collectionBeaker, min_def])

end ChemLab
